import Mathlib

/-!
# Stellarium: the lazy texture loader (`src/core/StelTexture.cpp`)

A shallow embedding of `StelTexture` and `ImageLoader`.  Member functions become
functions on an explicit `StelTexture` record; every call into OpenGL, Qt's signal
machinery or the allocator is recorded as an `Event`, so that statements such as
"issues no graphics call" or "creates exactly one ImageLoader" are statements about
the event list a call returns.  Values supplied by the outside world (the handle
returned by `QGLContext::bindTexture`, the content of a file, a network reply) are
explicit arguments.
-/

namespace Stellarium

/-- Compile-time switches the translated functions depend on. -/
structure Build where
  /-- True when `Q_ASSERT` is compiled in (`QT_NO_DEBUG` is not defined). -/
  qtDebug : Bool
  /-- True when `USE_OPENGL_ES2` is defined. -/
  openGLES2 : Bool
  /-- True when `Q_OS_WIN` is defined. -/
  osWin : Bool
  deriving DecidableEq, Repr

/-- The OpenGL enumerants named in the source, kept symbolic. -/
inductive GLenum
  | GL_TEXTURE_2D
  | GL_TEXTURE0
  | GL_NEAREST
  | GL_LINEAR
  | GL_LUMINANCE
  | GL_LUMINANCE_ALPHA
  | GL_RGB
  | GL_RGBA
  | GL_TEXTURE_WRAP_S
  | GL_TEXTURE_WRAP_T
  | GL_CLAMP
  | GL_CLAMP_TO_EDGE
  | GL_REPEAT
  deriving DecidableEq, Repr

/-- A `QImage`: either the null image `QImage()` or decoded pixels, of which the
code only reads the size and the channel layout. -/
inductive QImage
  | null
  | pixels (width height : Int) (grayscale alpha : Bool)
  deriving DecidableEq, Repr

namespace QImage

/-- Source: `QImage::isNull()`. -/
def isNull : QImage → Bool
  | null => true
  | pixels _ _ _ _ => false

/-- Source: `QImage::width()`; a null image has width 0. -/
def width : QImage → Int
  | null => 0
  | pixels w _ _ _ => w

/-- Source: `QImage::height()`; a null image has height 0. -/
def height : QImage → Int
  | null => 0
  | pixels _ h _ _ => h

/-- Source: `QImage::isGrayscale()`. -/
def isGrayscale : QImage → Bool
  | null => false
  | pixels _ _ g _ => g

/-- Source: `QImage::hasAlphaChannel()`. -/
def hasAlphaChannel : QImage → Bool
  | null => false
  | pixels _ _ _ a => a

end QImage

/-- Source: `QGLContext::BindOptions`, the flag set built in `glLoad`. -/
structure BindOptions where
  invertedY : Bool
  linearFiltering : Bool
  mipmap : Bool
  deriving DecidableEq, Repr

/-- The `loadParams` member: the three fields `glLoad` reads. -/
structure StelTextureParams where
  generateMipmaps : Bool
  filtering : GLenum
  wrapMode : GLenum
  deriving DecidableEq, Repr

/-- Source: `QNetworkReply::NetworkError`: `NoError` or some error code. -/
inductive NetworkError
  | NoError
  | code (n : Nat)
  deriving DecidableEq, Repr

/-- What a finished `QNetworkReply` holds: error status, error text, body. -/
structure QNetworkReply where
  error : NetworkError
  errorString : String
  data : List Nat
  deriving DecidableEq, Repr

/-- An `ImageLoader` object: its `path` and `networkReply` members
(`none` is the `NULL` pointer). -/
structure ImageLoader where
  path : String
  networkReply : Option QNetworkReply
  deriving DecidableEq, Repr

/-- Signals declared by `ImageLoader`. -/
inductive LoaderSignal
  | finished (image : QImage)
  | error (msg : String)
  deriving DecidableEq, Repr

/-- Names of the `ImageLoader` signals, as used in `connect`. -/
inductive SignalName
  | finished
  | error
  deriving DecidableEq, Repr

/-- Slots of `ImageLoader` (targets of timers and of the network reply). -/
inductive LoaderSlot
  | start
  | directLoad
  | onNetworkReply
  | onNetworkError
  | onDownloadProgress
  deriving DecidableEq, Repr

/-- Slots of `StelTexture` that a loader signal can be connected to. -/
inductive TextureSlot
  | onImageLoaded
  deriving DecidableEq, Repr

/-- Observable actions of the translated code, in program order. -/
inductive Event
  /-- Source: `glActiveTexture(texture)`. -/
  | glActiveTexture (texture : GLenum)
  /-- Source: `glBindTexture(target, id)`. -/
  | glBindTexture (target : GLenum) (id : Nat)
  /-- Source: `glTexParameteri(target, pname, param)`. -/
  | glTexParameteri (target pname param : GLenum)
  /-- Source: `StelPainter::glContext->bindTexture(image, target, format, opt)`. -/
  | ctxBindTexture (image : QImage) (target format : GLenum) (opt : BindOptions)
  /-- Source: `StelPainter::makeMainGLContextCurrent()`. -/
  | makeMainGLContextCurrent
  /-- Source: `glIsTexture(id)`. -/
  | glIsTexture (id : Nat)
  /-- Source: `glGetError()`. -/
  | glGetError
  /-- Source: `StelPainter::glContext->deleteTexture(id)`. -/
  | ctxDeleteTexture (id : Nat)
  /-- Source: `new ImageLoader(path, delay)`. -/
  | newImageLoader (path : String) (delay : Nat)
  /-- Source: `QTimer::singleShot(delay, loader, SLOT(slot))`. -/
  | singleShot (delay : Nat) (slot : LoaderSlot)
  /-- Source: `connect(loader, SIGNAL(sig), this, SLOT(slot))` issued by the texture. -/
  | connectLoader (sig : SignalName) (slot : TextureSlot)
  /-- Source: `loader->deleteLater()`. -/
  | deleteLater (loader : ImageLoader)
  /-- Source: `emit loadingProcessFinished(error)`. -/
  | loadingProcessFinished (error : Bool)
  /-- Source: `QImageReader im(path)` queried with `canRead()` / `size()`. -/
  | imageReaderProbe (path : String)
  /-- Source: `networkReply->abort()`. -/
  | networkReplyAbort
  deriving DecidableEq, Repr

namespace Event

/-- The events that are calls into OpenGL or into the `QGLContext`. -/
def isGraphicsCall : Event → Bool
  | glActiveTexture _ => true
  | glBindTexture _ _ => true
  | glTexParameteri _ _ _ => true
  | ctxBindTexture _ _ _ _ => true
  | makeMainGLContextCurrent => true
  | glIsTexture _ => true
  | glGetError => true
  | ctxDeleteTexture _ => true
  | _ => false

/-- The texture name an event binds with `glBindTexture`, if it is such a call. -/
def boundTexture : Event → Option Nat
  | glBindTexture _ id => some id
  | _ => none

/-- The events that allocate an `ImageLoader`. -/
def isLoaderCreation : Event → Bool
  | newImageLoader _ _ => true
  | _ => false

/-- The events that schedule an `ImageLoader` for deletion. -/
def isLoaderDeletion : Event → Bool
  | deleteLater _ => true
  | _ => false

/-- The events that release a GPU texture. -/
def isTextureDeletion : Event → Bool
  | ctxDeleteTexture _ => true
  | _ => false

end Event

/-- How a call can stop without returning. -/
inductive Fault
  /-- A `Q_ASSERT` whose condition is false, in a build that checks it. -/
  | assertion (condition : String)
  /-- A member call through a `NULL` pointer. -/
  | nullPointer (expression : String)
  deriving DecidableEq, Repr

/-- The members of `StelTexture` the translated functions read or write.
`loader = none` is `loader == NULL`; `id` is the `GLuint` texture name. -/
structure StelTexture where
  loader : Option ImageLoader
  downloaded : Bool
  isLoadingImage : Bool
  errorOccured : Bool
  id : Nat
  /-- A `float` in the source; only the constant `-1.f` is ever stored. -/
  avgLuminance : Int
  width : Int
  height : Int
  qImage : QImage
  errorMessage : String
  fullPath : String
  loadParams : StelTextureParams
  deriving DecidableEq, Repr

/-- Result of a member call: return value, object afterwards, events issued. -/
structure Ret (α : Type) where
  val : α
  tex : StelTexture
  events : List Event

/-- Source: `ImageLoader::ImageLoader(path, delay)`: stores the path, clears
`networkReply` and arms a single-shot timer for `start()`. -/
def ImageLoader.new (path : String) (delay : Nat) : ImageLoader × List Event :=
  (⟨path, none⟩, [Event.singleShot delay LoaderSlot.start])

namespace StelTexture

/-- Source: `StelTexture::StelTexture()`.  The members outside the initialiser list
(`qImage`, `errorMessage`) are default-constructed; `fullPath` and `loadParams`
are assigned by the texture manager right after construction and are taken as
arguments here. -/
def new (fullPath : String) (loadParams : StelTextureParams) : StelTexture :=
  { loader := none
    downloaded := false
    isLoadingImage := false
    errorOccured := false
    id := 0
    avgLuminance := -1
    width := -1
    height := -1
    qImage := QImage.null
    errorMessage := ""
    fullPath := fullPath
    loadParams := loadParams }

/-- Source: `StelTexture::reportError(aerrorMessage)`. -/
def reportError (t : StelTexture) (aerrorMessage : String) : Ret Unit :=
  { val := ()
    tex := { t with errorOccured := true, errorMessage := aerrorMessage }
    events := [Event.loadingProcessFinished true] }

/-- Source: `StelTexture::bind()`. -/
def bind (b : Build) (t : StelTexture) : Ret Bool :=
  if t.id ≠ 0 then
    { val := true
      tex := t
      events :=
        (if b.openGLES2 then [Event.glActiveTexture GLenum.GL_TEXTURE0] else []) ++
          [Event.glBindTexture GLenum.GL_TEXTURE_2D t.id] }
  else if t.errorOccured then
    { val := false, tex := t, events := [] }
  else if !t.isLoadingImage && t.loader.isNone then
    let created := ImageLoader.new t.fullPath 100
    { val := false
      tex := { t with isLoadingImage := true, loader := some created.1 }
      events :=
        [Event.newImageLoader t.fullPath 100] ++ created.2 ++
          [Event.connectLoader SignalName.finished TextureSlot.onImageLoaded] }
  else
    { val := false, tex := t, events := [] }

/-- What the graphics context answers during one call of `glLoad`. -/
structure GLEnv where
  /-- Source: `StelPainter::glContext == QGLContext::currentContext()`. -/
  contextIsCurrent : Bool
  /-- The `GLuint` returned by `StelPainter::glContext->bindTexture(...)`. -/
  bindTextureResult : Nat
  deriving DecidableEq, Repr

/-- Source: `StelTexture::glLoad()`. -/
def glLoad (b : Build) (gl : GLEnv) (t : StelTexture) : Except Fault (Ret Bool) :=
  if t.qImage.isNull then
    let t1 := { t with errorOccured := true }
    let r := reportError t1 "Unknown error"
    Except.ok { val := false, tex := r.tex, events := r.events }
  else
    let opt0 : BindOptions := { invertedY := true, linearFiltering := false, mipmap := false }
    let opt1 : BindOptions :=
      if t.loadParams.filtering = GLenum.GL_LINEAR then
        { opt0 with linearFiltering := true }
      else opt0
    let opt : BindOptions :=
      if !b.osWin && t.loadParams.generateMipmaps then { opt1 with mipmap := true } else opt1
    let glformat : GLenum :=
      if t.qImage.isGrayscale then
        (if t.qImage.hasAlphaChannel then GLenum.GL_LUMINANCE_ALPHA else GLenum.GL_LUMINANCE)
      else if t.qImage.hasAlphaChannel then GLenum.GL_RGBA
      else GLenum.GL_RGB
    if b.qtDebug && !gl.contextIsCurrent then
      Except.error (Fault.assertion "StelPainter::glContext==QGLContext::currentContext()")
    else
      Except.ok
        { val := true
          tex := { t with id := gl.bindTextureResult, qImage := QImage.null }
          events :=
            (if b.openGLES2 then [Event.glActiveTexture GLenum.GL_TEXTURE0] else []) ++
              [ Event.ctxBindTexture t.qImage GLenum.GL_TEXTURE_2D glformat opt,
                Event.glTexParameteri GLenum.GL_TEXTURE_2D GLenum.GL_TEXTURE_WRAP_S
                  t.loadParams.wrapMode,
                Event.glTexParameteri GLenum.GL_TEXTURE_2D GLenum.GL_TEXTURE_WRAP_T
                  t.loadParams.wrapMode,
                Event.loadingProcessFinished false ] }

/-- Source: `StelTexture::onImageLoaded(image)`.  The value returned by `glLoad()` is
discarded by the source; the call through `loader` faults when `loader` is `NULL`. -/
def onImageLoaded (b : Build) (gl : GLEnv) (t : StelTexture) (image : QImage) :
    Except Fault (Ret Unit) :=
  let t1 := { t with qImage := image }
  if b.qtDebug && t1.qImage.isNull then
    Except.error (Fault.assertion "!qImage.isNull()")
  else
    match glLoad b gl t1 with
    | Except.error f => Except.error f
    | Except.ok r =>
      let t2 := { r.tex with isLoadingImage := false }
      match t2.loader with
      | none => Except.error (Fault.nullPointer "loader->deleteLater()")
      | some l =>
        Except.ok
          { val := ()
            tex := { t2 with loader := none }
            events := r.events ++ [Event.deleteLater l] }

/-- Source: `StelTexture::getDimensions(awidth, aheight)`.  `probe path` is what
`QImageReader(path)` reports: `none` when `canRead()` is false, else `size()`.
The value carries the return value and the two reference arguments afterwards. -/
def getDimensions (probe : String → Option (Int × Int)) (t : StelTexture)
    (awidth aheight : Int) : Ret (Bool × Int × Int) :=
  if t.width < 0 || t.height < 0 then
    if !t.qImage.isNull then
      { val := (true, t.qImage.width, t.qImage.height)
        tex := { t with width := t.qImage.width, height := t.qImage.height }
        events := [] }
    else
      match probe t.fullPath with
      | none =>
        { val := (false, awidth, aheight), tex := t,
          events := [Event.imageReaderProbe t.fullPath] }
      | some size =>
        { val := (true, size.1, size.2)
          tex := { t with width := size.1, height := size.2 }
          events := [Event.imageReaderProbe t.fullPath] }
  else
    { val := (true, t.width, t.height), tex := t, events := [] }

/-- The three observable conditions the load state is read from. -/
def isLoaded (t : StelTexture) : Bool := decide (t.id ≠ 0)

/-- The `Unloaded` state: nothing loaded, no error, no load in flight. -/
def isUnloaded (t : StelTexture) : Bool :=
  decide (t.id = 0) && !t.errorOccured && !t.isLoadingImage && t.loader.isNone

/-- The `LoadError` state. -/
def isLoadError (t : StelTexture) : Bool := decide (t.id = 0) && t.errorOccured

/-- Calls `bind()` `n` times in a row; returns the `n` results in call order,
the texture after the last call, and all events issued. -/
def bindTimes (b : Build) : Nat → StelTexture → List Bool × StelTexture × List Event
  | 0, t => ([], t, [])
  | n + 1, t =>
    let r := bind b t
    let rest := bindTimes b n r.tex
    (r.val :: rest.1, rest.2.1, r.events ++ rest.2.2)

end StelTexture

/-- The outside world an `ImageLoader` reads from. -/
structure World where
  /-- Source: `QImage(path)`: the decoded file, or the null image if it cannot be read. -/
  file : String → QImage
  /-- The reply of `QNetworkAccessManager::get` for a URL, as it is once finished. -/
  net : String → QNetworkReply
  /-- Source: `QImage::fromData(bytes)`. -/
  fromData : List Nat → QImage

namespace ImageLoader

/-- Source: `path.startsWith("http://")`. -/
def isHttp (path : String) : Bool := "http://".toList.isPrefixOf path.toList

/-- Source: `ImageLoader::start()`: issues the network request or arms `directLoad()`.
The debugging set `test` and the move to the loader thread are left out. -/
def start (w : World) (l : ImageLoader) : ImageLoader × List Event :=
  if isHttp l.path then
    ({ l with networkReply := some (w.net l.path) }, [])
  else
    (l, [Event.singleShot 0 LoaderSlot.directLoad])

/-- Source: `ImageLoader::directLoad()`: always emits `finished(QImage(path))`. -/
def directLoad (w : World) (l : ImageLoader) : List LoaderSignal :=
  [LoaderSignal.finished (w.file l.path)]

/-- Source: `ImageLoader::onNetworkError(code)`: logs only (the `emit` is commented out). -/
def onNetworkError (l : ImageLoader) (_code : Nat) :
    Except Fault (ImageLoader × List LoaderSignal) :=
  match l.networkReply with
  | none => Except.error (Fault.nullPointer "networkReply->errorString()")
  | some _ => Except.ok (l, [])

/-- Source: `ImageLoader::onNetworkReply()`. -/
def onNetworkReply (w : World) (l : ImageLoader) :
    Except Fault (ImageLoader × List LoaderSignal) :=
  match l.networkReply with
  | none => Except.error (Fault.nullPointer "networkReply->error()")
  | some reply =>
    let signals : List LoaderSignal :=
      if reply.error ≠ NetworkError.NoError then
        [LoaderSignal.error reply.errorString]
      else
        let image := w.fromData reply.data
        if image.isNull then [] else [LoaderSignal.finished image]
    Except.ok ({ l with networkReply := none }, signals)

/-- The life of a loader after construction: `start()` fires, then either the
timer runs `directLoad()`, or the reply signals `error(code)` (if any) and
`finished()`, which run `onNetworkError` and `onNetworkReply`. -/
def run (w : World) (l : ImageLoader) : Except Fault (ImageLoader × List LoaderSignal) :=
  let started := start w l
  match started.1.networkReply with
  | none => Except.ok (started.1, directLoad w started.1)
  | some reply =>
    let afterError : Except Fault (ImageLoader × List LoaderSignal) :=
      match reply.error with
      | NetworkError.NoError => Except.ok (started.1, [])
      | NetworkError.code c => onNetworkError started.1 c
    match afterError with
    | Except.error f => Except.error f
    | Except.ok r1 =>
      match onNetworkReply w r1.1 with
      | Except.error f => Except.error f
      | Except.ok r2 => Except.ok (r2.1, r1.2 ++ r2.2)

end ImageLoader

namespace LoaderSignal

/-- The name a signal is connected under. -/
def name : LoaderSignal → SignalName
  | finished _ => SignalName.finished
  | error _ => SignalName.error

end LoaderSignal

/-- The signal-slot connections a list of events has established. -/
def connectionsOf : List Event → List (SignalName × TextureSlot)
  | [] => []
  | Event.connectLoader s sl :: es => (s, sl) :: connectionsOf es
  | _ :: es => connectionsOf es

namespace StelTexture

/-- Delivery of one loader signal to the texture: the slot runs if the signal
is connected to it, otherwise the signal is dropped. -/
def deliver (b : Build) (gl : GLEnv) (conns : List (SignalName × TextureSlot))
    (t : StelTexture) (s : LoaderSignal) : Except Fault (StelTexture × List Event) :=
  match s with
  | LoaderSignal.finished image =>
    if (SignalName.finished, TextureSlot.onImageLoaded) ∈ conns then
      match onImageLoaded b gl t image with
      | Except.error f => Except.error f
      | Except.ok r => Except.ok (r.tex, r.events)
    else Except.ok (t, [])
  | LoaderSignal.error _ => Except.ok (t, [])

/-- Delivery of a list of signals, in order. -/
def deliverAll (b : Build) (gl : GLEnv) (conns : List (SignalName × TextureSlot)) :
    StelTexture → List LoaderSignal → Except Fault (StelTexture × List Event)
  | t, [] => Except.ok (t, [])
  | t, s :: ss =>
    match deliver b gl conns t s with
    | Except.error f => Except.error f
    | Except.ok r1 =>
      match deliverAll b gl conns r1.1 ss with
      | Except.error f => Except.error f
      | Except.ok r2 => Except.ok (r2.1, r1.2 ++ r2.2)

/-- One `bind()` followed, when that call created a loader, by the whole life of
the loader and the delivery of its signals through the connections `bind()` made. -/
def bindAndLoad (b : Build) (gl : GLEnv) (w : World) (t : StelTexture) :
    Except Fault (StelTexture × List Event) :=
  let r := bind b t
  if r.events.any Event.isLoaderCreation then
    match r.tex.loader with
    | none => Except.ok (r.tex, r.events)
    | some l =>
      match ImageLoader.run w l with
      | Except.error f => Except.error f
      | Except.ok lr =>
        match deliverAll b gl (connectionsOf r.events) r.tex lr.2 with
        | Except.error f => Except.error f
        | Except.ok d => Except.ok (d.1, r.events ++ d.2)
  else Except.ok (r.tex, r.events)

/-- States and event histories reachable from a fresh texture by `bind()` calls
and by completions delivered by the attached loader. -/
inductive Reachable (b : Build) : StelTexture → List Event → Prop
  | fresh (fullPath : String) (loadParams : StelTextureParams) :
      Reachable b (new fullPath loadParams) []
  | bind {t : StelTexture} {tr : List Event} :
      Reachable b t tr → Reachable b (bind b t).tex (tr ++ (bind b t).events)
  | completed {t : StelTexture} {tr : List Event} (gl : GLEnv) (image : QImage)
      (r : Ret Unit) :
      Reachable b t tr → t.loader.isSome = true → onImageLoaded b gl t image = Except.ok r →
      Reachable b r.tex (tr ++ r.events)

/-- States reachable from a fresh texture by any of the five member functions
`bind`, `onImageLoaded`, `glLoad`, `getDimensions`, `reportError` returning. -/
inductive ReachableByCalls (b : Build) : StelTexture → Prop
  | fresh (fullPath : String) (loadParams : StelTextureParams) :
      ReachableByCalls b (new fullPath loadParams)
  | bind {t : StelTexture} : ReachableByCalls b t → ReachableByCalls b (bind b t).tex
  | onImageLoaded {t : StelTexture} (gl : GLEnv) (image : QImage) (r : Ret Unit) :
      ReachableByCalls b t → onImageLoaded b gl t image = Except.ok r →
      ReachableByCalls b r.tex
  | glLoad {t : StelTexture} (gl : GLEnv) (r : Ret Bool) :
      ReachableByCalls b t → glLoad b gl t = Except.ok r → ReachableByCalls b r.tex
  | getDimensions {t : StelTexture} (probe : String → Option (Int × Int)) (w h : Int) :
      ReachableByCalls b t → ReachableByCalls b (getDimensions probe t w h).tex
  | reportError {t : StelTexture} (msg : String) :
      ReachableByCalls b t → ReachableByCalls b (reportError t msg).tex

/-- Loaders created and not yet scheduled for deletion in an event history. -/
def outstandingLoaders (tr : List Event) : Int :=
  (tr.countP Event.isLoaderCreation : Int) - (tr.countP Event.isLoaderDeletion : Int)

end StelTexture

/-! ## Destruction, the renderer's texture factory, dimension queries -/

/-- Source: `ImageLoader::~ImageLoader()`: aborts a network reply that is still
attached.  The tracing of the debugging set `test` is left out. -/
def ImageLoader.destructor (l : ImageLoader) : List Event :=
  match l.networkReply with
  | some _ => [Event.networkReplyAbort]
  | none => []

namespace StelTexture

/-- Source: `StelTexture::~StelTexture()`.  `isTexture` is what `glIsTexture(id)`
answers; the warning branch evaluates `glGetError()` for its message. -/
def destructor (isTexture : Bool) (t : StelTexture) : Ret Unit :=
  let afterId : StelTexture × List Event :=
    if t.id ≠ 0 then
      ({ t with id := 0 },
        [Event.makeMainGLContextCurrent, Event.glIsTexture t.id] ++
          (if isTexture = false then [Event.glGetError] else [Event.ctxDeleteTexture t.id]))
    else (t, [])
  match afterId.1.loader with
  | some l =>
    { val := ()
      tex := { afterId.1 with loader := none }
      events := afterId.2 ++ [Event.deleteLater l] }
  | none => { val := (), tex := afterId.1, events := afterId.2 }

end StelTexture

/-- The load states of the older `ManagedSTexture` (`StelTextureMgr.hpp`). -/
inductive LoadState
  | UNLOADED
  | LOADED
  | LOAD_ERROR
  | LOADING_IMAGE
  deriving DecidableEq, Repr

/-- Source: `ManagedSTexture::DynamicRangeMode`. -/
inductive DynamicRangeMode
  | LINEAR
  | MINMAX_USER
  | MINMAX_QUANTILE
  | MINMAX_GREYLEVEL
  | MINMAX_GREYLEVEL_AUTO
  deriving DecidableEq, Repr

/-- The data members `ManagedSTexture` adds to `STexture`. -/
structure ManagedSTexture where
  loadState : LoadState
  /-- A `float` in the source; the constructor stores `-1.f`. -/
  avgLuminance : Int
  dynamicRangeMode : DynamicRangeMode
  deriving DecidableEq, Repr

/-- Source: `ManagedSTexture::~ManagedSTexture()`.  `ndebug` says whether `NDEBUG`
is defined, which turns `assert` into a no-op. -/
def ManagedSTexture.destructor (ndebug : Bool) (t : ManagedSTexture) : Except Fault Unit :=
  if t.loadState = LoadState.LOADING_IMAGE then
    (if ndebug then Except.ok () else Except.error (Fault.assertion "0"))
  else Except.ok ()

/-- Modelled from the spec: the enum `TextureLoadingMode`, declared in a header
that is not part of the sources; its three values are the ones named by the
documentation of `createTextureBackend` (immediate, asynchronous, lazy). -/
inductive TextureLoadingMode
  | Normal
  | Asynchronous
  | LazyAsynchronous
  deriving DecidableEq, Repr

namespace StelRenderer

/-- Source: `filename.endsWith(".pvr")`. -/
def endsWithPvr (filename : String) : Bool := ".pvr".toList.isSuffixOf filename.toList

/-- Source: `StelRenderer::createTextureBackend(filename, params, loadingMode)`.  The pure
virtual `createTextureBackend_` is an argument; `none` is the `NULL` backend. -/
def createTextureBackend {β : Type} (b : Build)
    (createTextureBackend_ : String → StelTextureParams → TextureLoadingMode → Option β)
    (filename : String) (params : StelTextureParams) (loadingMode : TextureLoadingMode) :
    Except Fault (Option β) :=
  if b.qtDebug && endsWithPvr filename then
    Except.error (Fault.assertion "!filename.endsWith(\".pvr\")")
  else if b.qtDebug && filename.isEmpty then
    Except.error (Fault.assertion "!filename.isEmpty()")
  else if b.qtDebug &&
      (ImageLoader.isHttp filename && decide (loadingMode = TextureLoadingMode.Normal)) then
    Except.error
      (Fault.assertion
        "!(filename.startsWith(\"http://\") && loadingMode == TextureLoadingMode_Normal)")
  else
    Except.ok (createTextureBackend_ filename params loadingMode)

end StelRenderer

/-! ## Command-line options with an argument (`StelUtils.hpp`) -/

namespace StelUtils

/-- Source: `find(args.begin(), args.end(), value)`, as the index of the iterator it
returns: the position of the first entry equal to `value`, `args.size()` if
there is none. -/
def find (value : String) : List String → Nat
  | [] => 0
  | x :: xs => if x = value then 0 else find value xs + 1

/-- Source: `s.substr(pos, n)` for `pos <= s.size()`, the only way it is called. -/
def substr (s : String) (pos n : Nat) : String := String.mk ((s.toList.drop pos).take n)

/-- Source: `*i == shortOpt || *i == longOpt`. -/
def isOptionEntry (shortOpt longOpt cur : String) : Bool :=
  decide (cur = shortOpt) || decide (cur = longOpt)

/-- Source: `(*i).substr(0, longOpt.length()) == longOpt &&
(*i).substr(longOpt.length(), 1) == "="`. -/
def isAssignmentEntry (longOpt cur : String) : Bool :=
  decide (substr cur 0 longOpt.length = longOpt) && decide (substr cur longOpt.length 1 = "=")

/-- The `for` loop of `argsHaveOptionWithArg`, at iterator position `i`; `fuel`
counts the iterations left before `i == lastOpt`.  `parse` is the extraction
`stringstream(s) >> result`, `none` when `ss.fail()`.  The first component is
the value returned or the message of the `runtime_error` thrown, the second is
`args` afterwards. -/
def argsHaveOptionWithArgLoop {T : Type} (parse : String → Option T) (args : List String)
    (shortOpt longOpt : String) (defValue : T) (modify : Bool) (lastOpt : Nat) :
    Nat → Nat → Except String T × List String
  | 0, _ => (Except.ok defValue, args)
  | fuel + 1, i =>
    let cur := args.getD i ""
    if isOptionEntry shortOpt longOpt cur then
      let optArg := i + 1
      if optArg = lastOpt then (Except.error "no_optarg", args)
      else
        match parse (args.getD optArg "") with
        | some result =>
          (Except.ok result, if modify then args.take i ++ args.drop (optArg + 1) else args)
        | none => (Except.error "optarg_type", args)
    else if isAssignmentEntry longOpt cur then
      let arg := String.mk (cur.toList.drop (longOpt.length + 1))
      match parse arg with
      | some result =>
        (Except.ok result, if modify then args.take i ++ args.drop (i + 1) else args)
      | none => (Except.error "optarg type", args)
    else argsHaveOptionWithArgLoop parse args shortOpt longOpt defValue modify lastOpt fuel (i + 1)

/-- Source: `StelUtils::argsHaveOptionWithArg<T>(args, shortOpt, longOpt, defValue, modify)`. -/
def argsHaveOptionWithArg {T : Type} (parse : String → Option T) (args : List String)
    (shortOpt longOpt : String) (defValue : T) (modify : Bool) :
    Except String T × List String :=
  let lastOpt := find "--" args
  argsHaveOptionWithArgLoop parse args shortOpt longOpt defValue modify lastOpt lastOpt 0

end StelUtils

/-! ## Shader set-up of the OpenGL 2 renderer (`StelQGL2Renderer.hpp`) -/

/-- The two shader stages `loadShaderProgram` compiles. -/
inductive ShaderStage
  | Vertex
  | Fragment
  deriving DecidableEq, Repr

/-- A `QGLShaderProgram` object, told apart by the name it was loaded under. -/
structure ShaderProgram where
  name : String
  deriving DecidableEq, Repr

/-- What the GL driver and the base class answer during `init()`.  The GLSL
sources are constants of the code, so compilation results are given per program
name and stage. -/
structure ShaderEnv where
  /-- Result of `addShaderFromSourceCode(stage, src)` for the named program. -/
  compiles : String → ShaderStage → Bool
  /-- Result of `link()` for the named program. -/
  links : String → Bool
  /-- Result of `StelQGLRenderer::init()`. -/
  baseInit : Bool
  /-- Whether the assertions of `StelQGLRenderer::invariant()` hold. -/
  baseInvariant : Bool

/-- The data members of `StelQGL2Renderer`; a `none` pointer is `NULL`. -/
structure StelQGL2Renderer where
  initialized : Bool
  shaderPrograms : List (Option ShaderProgram)
  plainShaderProgram : Option ShaderProgram
  colorShaderProgram : Option ShaderProgram
  textureShaderProgram : Option ShaderProgram
  colorTextureShaderProgram : Option ShaderProgram
  deriving DecidableEq, Repr

namespace StelQGL2Renderer

/-- Source: `StelQGL2Renderer::StelQGL2Renderer(parent)`.  The initialiser list sets
`initialized` and `shaderPrograms` only; the four program pointers are left
uninitialised, so their values are arguments. -/
def new (plain color texture colorTexture : Option ShaderProgram) : StelQGL2Renderer :=
  { initialized := false
    shaderPrograms := []
    plainShaderProgram := plain
    colorShaderProgram := color
    textureShaderProgram := texture
    colorTextureShaderProgram := colorTexture }

/-- Source: `StelQGL2Renderer::loadShaderProgram(name, vSrc, fSrc)`: `NULL` when a
stage does not compile or the program does not link. -/
def loadShaderProgram (env : ShaderEnv) (name : String) : Option ShaderProgram :=
  if !env.compiles name ShaderStage.Vertex then none
  else if !env.compiles name ShaderStage.Fragment then none
  else if !env.links name then none
  else some { name := name }

/-- Source: `StelQGL2Renderer::invariant()`. -/
def invariant (b : Build) (env : ShaderEnv) (r : StelQGL2Renderer) : Except Fault Unit :=
  if b.qtDebug && !r.initialized then
    Except.error (Fault.assertion "initialized")
  else if b.qtDebug && !env.baseInvariant then
    Except.error (Fault.assertion "StelQGLRenderer::invariant()")
  else Except.ok ()

/-- Source: `StelQGL2Renderer::init()`: the value returned and the renderer afterwards.
The third test reads `colorTextureShaderProgram`, as the source does. -/
def init (b : Build) (env : ShaderEnv) (r : StelQGL2Renderer) :
    Except Fault (Bool × StelQGL2Renderer) :=
  if b.qtDebug && r.initialized then
    Except.error (Fault.assertion "!initialized")
  else
    let r1 := { r with plainShaderProgram := loadShaderProgram env "plainShaderProgram" }
    if r1.plainShaderProgram = none then Except.ok (false, r1)
    else
      let r2 := { r1 with shaderPrograms := r1.shaderPrograms ++ [r1.plainShaderProgram] }
      let r3 := { r2 with colorShaderProgram := loadShaderProgram env "colorShaderProgram" }
      if r3.colorShaderProgram = none then Except.ok (false, r3)
      else
        let r4 := { r3 with shaderPrograms := r3.shaderPrograms ++ [r3.colorShaderProgram] }
        let r5 :=
          { r4 with textureShaderProgram := loadShaderProgram env "textureShaderProgram" }
        if r5.colorTextureShaderProgram = none then Except.ok (false, r5)
        else
          let r6 := { r5 with shaderPrograms := r5.shaderPrograms ++ [r5.textureShaderProgram] }
          let r7 :=
            { r6 with
              colorTextureShaderProgram := loadShaderProgram env "colorTextureShaderProgram" }
          if r7.colorTextureShaderProgram = none then Except.ok (false, r7)
          else
            let r8 :=
              { r7 with shaderPrograms := r7.shaderPrograms ++ [r7.colorTextureShaderProgram] }
            if !env.baseInit then Except.ok (false, r8)
            else
              let r9 := { r8 with initialized := true }
              match invariant b env r9 with
              | Except.error f => Except.error f
              | Except.ok _ => Except.ok (true, r9)

end StelQGL2Renderer

/-! ## Upload format, script images, time speed, field of view -/

namespace Event

/-- The pixel format an event passes to `QGLContext::bindTexture`, if it is such a call. -/
def uploadFormat : Event → Option GLenum
  | ctxBindTexture _ _ format _ => some format
  | _ => none

/-- The parameter name and value an event passes to `glTexParameteri`, if it is
such a call. -/
def texParameter : Event → Option (GLenum × GLenum)
  | glTexParameteri _ pname param => some (pname, param)
  | _ => none

end Event

/-- An `Image` of the script image manager: the two constructor arguments. -/
structure Image where
  filename : String
  name : String
  deriving DecidableEq, Repr

/-- The way the loop of `load_image` leaves defined behaviour. -/
inductive IteratorFault
  /-- The iterator was advanced beyond `end()` and is dereferenced. -/
  | pastTheEnd
  deriving DecidableEq, Repr

namespace ImageMgr

/-- The `for` loop of `ImageMgr::load_image` with the iterator as an index into
`active_images`: `erase(iter)` moves the following entries down and `++iter`
still runs.  The loop stops when the index equals the size; an index beyond the
size is dereferenced, which is undefined.  `fuel` bounds the iterations. -/
def load_image_loop (name : String) : Nat → Nat → List Image → Except IteratorFault (List Image)
  | 0, _, active_images => Except.ok active_images
  | fuel + 1, iter, active_images =>
    if iter = active_images.length then Except.ok active_images
    else
      match active_images.get? iter with
      | none => Except.error IteratorFault.pastTheEnd
      | some img =>
        if img.name = name then
          load_image_loop name fuel (iter + 1) (active_images.eraseIdx iter)
        else load_image_loop name fuel (iter + 1) active_images

/-- Source: `ImageMgr::load_image(filename, name)`: the value returned and
`active_images` afterwards. -/
def load_image (active_images : List Image) (filename name : String) :
    Except IteratorFault (Int × List Image) :=
  match load_image_loop name (active_images.length + 1) 0 active_images with
  | Except.error f => Except.error f
  | Except.ok remaining => Except.ok (1, remaining ++ [{ filename := filename, name := name }])

/-- Source: `ImageMgr::drop_image(name)`: erases the first image of that name and
returns 1, or returns 0. -/
def drop_image : List Image → String → Int × List Image
  | [], _ => (0, [])
  | img :: rest, name =>
    if img.name = name then (1, rest)
    else ((drop_image rest name).1, img :: (drop_image rest name).2)

/-- Source: `ImageMgr::get_image(name)`: the first image of that name, `NULL` if none. -/
def get_image : List Image → String → Option Image
  | [], _ => none
  | img :: rest, name => if img.name = name then some img else get_image rest name

end ImageMgr

namespace Navigator

/-- Source: `#define JD_SECOND 0.000011574074074074074074`, as an exact number. -/
def JD_SECOND {K : Type} [LinearOrderedField K] : K :=
  11574074074074074074 / 1000000000000000000000000

/-- Source: `Navigator::increaseTimeSpeed()`, as the map from the current
time speed to the one passed to `setTimeSpeed`, over exact numbers. -/
def increaseTimeSpeed {K : Type} [LinearOrderedField K] (s : K) : K :=
  if s ≥ JD_SECOND then s * 10
  else if s < -JD_SECOND then s / 10
  else if s ≥ 0 ∧ s < JD_SECOND then JD_SECOND
  else if s ≥ -JD_SECOND ∧ s < 0 then 0
  else s

/-- Source: `Navigator::decreaseTimeSpeed()`, in the same way. -/
def decreaseTimeSpeed {K : Type} [LinearOrderedField K] (s : K) : K :=
  if s > JD_SECOND then s / 10
  else if s ≤ -JD_SECOND then s * 10
  else if s > -JD_SECOND ∧ s ≤ 0 then -JD_SECOND
  else if s > 0 ∧ s ≤ JD_SECOND then 0
  else s

end Navigator

/-- The three members of `Projector` that `set_fov` and `change_fov` use, with
`double` values taken as exact rationals. -/
structure Projector where
  fov : ℚ
  min_fov : ℚ
  max_fov : ℚ
  deriving DecidableEq

namespace Projector

/-- Source: `Projector::set_fov(f)`; the projection matrix is not modelled. -/
def set_fov (p : Projector) (f : ℚ) : Projector :=
  let p1 := { p with fov := f }
  let p2 := if f > p1.max_fov then { p1 with fov := p1.max_fov } else p1
  if f < p2.min_fov then { p2 with fov := p2.min_fov } else p2

/-- Source: `Projector::change_fov(deltaFov)`; each of the three tests reads the
`fov` left by the statements before it. -/
def change_fov (p : Projector) (deltaFov : ℚ) : Projector :=
  if deltaFov ≠ 0 then
    let p1 :=
      if p.fov + deltaFov > p.min_fov ∧ p.fov + deltaFov < p.max_fov then
        { p with fov := p.fov + deltaFov }
      else p
    let p2 := if p1.fov + deltaFov > p1.max_fov then { p1 with fov := p1.max_fov } else p1
    if p2.fov + deltaFov < p2.min_fov then { p2 with fov := p2.min_fov } else p2
  else p

/-- The value `x` limited to the interval from `lo` to `hi`. -/
def clamp (lo hi x : ℚ) : ℚ := if x > hi then hi else if x < lo then lo else x

end Projector

/-! ## Add-on compatibility (`AddOnDialog.cpp`) -/

namespace AddOnDialog

/-- Source: `QString::split(".")`, on the characters of the string; empty parts are kept. -/
def splitDots : List Char → List (List Char)
  | [] => [[]]
  | c :: cs =>
    if c = '.' then [] :: splitDots cs
    else
      match splitDots cs with
      | [] => [[c]]
      | part :: parts => (c :: part) :: parts

/-- The number written by a string of decimal digits, `none` if another
character occurs. -/
def digitsValue : List Char → Nat → Option Nat
  | [], acc => some acc
  | c :: cs, acc =>
    if 48 ≤ c.toNat ∧ c.toNat ≤ 57 then digitsValue cs (acc * 10 + (c.toNat - 48)) else none

/-- Source: `QString::toInt()` for a non-empty string of decimal digits: its value, or 0
when the value does not fit an `int`.  Every other string gives 0 here; signs
and blanks, which Qt accepts, do not occur in the inputs considered. -/
def toInt (s : List Char) : Int :=
  match s with
  | [] => 0
  | _ =>
    match digitsValue s 0 with
    | some n => if n ≤ 2147483647 then (n : Int) else 0
    | none => 0

/-- The integer the code builds from the components of a version:
`c.at(0) % "00" % c.at(1) % "0" % c.at(2)` read as a number. -/
def versionNumber (c : List (List Char)) : Int :=
  toInt (c.getD 0 [] ++ "00".toList ++ c.getD 1 [] ++ "0".toList ++ c.getD 2 [])

/-- Source: `AddOnDialog::isCompatible(first, last)`; `applicationVersion` is what
`StelUtils::getApplicationVersion()` returns. -/
def isCompatible (applicationVersion first last : String) : Bool :=
  let c := splitDots applicationVersion.toList
  let f := splitDots first.toList
  let l := splitDots last.toList
  if c.length < 3 ∨ f.length < 3 ∨ l.length < 3 then false
  else
    let currentVersion := versionNumber c
    let firstVersion := versionNumber f
    let lastVersion := versionNumber l
    if currentVersion < firstVersion ∨ currentVersion > lastVersion then false
    else true

/-- The usual order of versions `major.minor.patch`: by major, then minor, then
patch number. -/
def versionLE (a b : Nat × Nat × Nat) : Bool :=
  decide (a.1 < b.1) ||
    (decide (a.1 = b.1) &&
      (decide (a.2.1 < b.2.1) || (decide (a.2.1 = b.2.1) && decide (a.2.2 ≤ b.2.2))))

end AddOnDialog

/-! ## CCD settings (`Oculars/src/CCD.cpp`) -/

/-- A `QVariant` holding one of the four types the CCD settings use; `double`
values are taken as exact rationals. -/
inductive QVariant
  | string (s : String)
  | int (n : Int)
  | double (q : ℚ)
  | bool (b : Bool)
  deriving DecidableEq

/-- Qt's conversions between strings and the other types, which the code relies
on for default values and for the settings key. -/
structure QtConversions where
  stringToInt : String → Int
  stringToDouble : String → ℚ
  stringToBool : String → Bool
  intToString : Int → String
  doubleToString : ℚ → String
  doubleToInt : ℚ → Int

namespace QVariant

/-- Source: `QVariant::toString()`. -/
def toString (conv : QtConversions) : QVariant → String
  | string s => s
  | int n => conv.intToString n
  | double q => conv.doubleToString q
  | bool b => if b then "true" else "false"

/-- Source: `QVariant::toInt()`. -/
def toInt (conv : QtConversions) : QVariant → Int
  | string s => conv.stringToInt s
  | int n => n
  | double q => conv.doubleToInt q
  | bool b => if b then 1 else 0

/-- Source: `QVariant::toDouble()`. -/
def toDouble (conv : QtConversions) : QVariant → ℚ
  | string s => conv.stringToDouble s
  | int n => (n : ℚ)
  | double q => q
  | bool b => if b then 1 else 0

/-- Source: `QVariant::toBool()`. -/
def toBool (conv : QtConversions) : QVariant → Bool
  | string s => conv.stringToBool s
  | int n => decide (n ≠ 0)
  | double q => decide (q ≠ 0)
  | bool b => b

end QVariant

/-- A `QSettings` object as its list of keys and values. -/
abbrev QSettings := List (String × QVariant)

namespace QSettings

/-- Source: `QSettings::setValue(key, value)`: replaces the value stored under the key. -/
def setValue (settings : QSettings) (key : String) (value : QVariant) : QSettings :=
  (key, value) :: settings.filter (fun entry => decide (entry.1 ≠ key))

/-- Source: `QSettings::value(key, defaultValue)`. -/
def value (settings : QSettings) (key : String) (defaultValue : QVariant) : QVariant :=
  match settings.find? (fun entry => decide (entry.1 = key)) with
  | some entry => entry.2
  | none => defaultValue

end QSettings

/-- The data members of `CCD`; `double` values are taken as exact rationals. -/
structure CCD where
  m_name : String
  m_resolutionX : Int
  m_resolutionY : Int
  m_chipWidth : ℚ
  m_chipHeight : ℚ
  m_pixelWidth : ℚ
  m_pixelHeight : ℚ
  m_has_oag : Bool
  m_oag_prismHeight : ℚ
  m_oag_prismWidth : ℚ
  m_oag_prismDistance : ℚ
  m_oag_prismPosAngle : ℚ
  deriving DecidableEq

namespace CCD

/-- Source: `CCD::CCD()`; `m_name` is default-constructed. -/
def new : CCD :=
  { m_name := "", m_resolutionX := 0, m_resolutionY := 0, m_chipWidth := 0, m_chipHeight := 0,
    m_pixelWidth := 0, m_pixelHeight := 0, m_has_oag := false, m_oag_prismHeight := 0,
    m_oag_prismWidth := 0, m_oag_prismDistance := 0, m_oag_prismPosAngle := 0 }

/-- Source: `CCD::writeToSettings(settings, index)`: the settings afterwards.  The
value stored under `pixel_height` is `pixelWidth()`, as in the source. -/
def writeToSettings (conv : QtConversions) (c : CCD) (settings : QSettings) (index : Int) :
    QSettings :=
  let pre := "ccd/" ++ (QVariant.int index).toString conv ++ "/"
  let s1 := settings.setValue (pre ++ "name") (QVariant.string c.m_name)
  let s2 := s1.setValue (pre ++ "resolutionX") (QVariant.int c.m_resolutionX)
  let s3 := s2.setValue (pre ++ "resolutionY") (QVariant.int c.m_resolutionY)
  let s4 := s3.setValue (pre ++ "chip_width") (QVariant.double c.m_chipWidth)
  let s5 := s4.setValue (pre ++ "chip_height") (QVariant.double c.m_chipHeight)
  let s6 := s5.setValue (pre ++ "pixel_width") (QVariant.double c.m_pixelWidth)
  let s7 := s6.setValue (pre ++ "pixel_height") (QVariant.double c.m_pixelWidth)
  let s8 := s7.setValue (pre ++ "has_oag") (QVariant.bool c.m_has_oag)
  let s9 := s8.setValue (pre ++ "prism_height") (QVariant.double c.m_oag_prismHeight)
  let s10 := s9.setValue (pre ++ "prism_width") (QVariant.double c.m_oag_prismWidth)
  let s11 := s10.setValue (pre ++ "prism_distance") (QVariant.double c.m_oag_prismDistance)
  s11.setValue (pre ++ "prism_pos_angle") (QVariant.double c.m_oag_prismPosAngle)

/-- Source: `CCD::ccdFromSettings(theSettings, ccdIndex)`. -/
def ccdFromSettings (conv : QtConversions) (theSettings : QSettings) (ccdIndex : Int) : CCD :=
  let pre := "ccd/" ++ (QVariant.int ccdIndex).toString conv ++ "/"
  let ccd := CCD.new
  let ccd := { ccd with
    m_name := (theSettings.value (pre ++ "name") (QVariant.string "")).toString conv }
  let ccd := { ccd with
    m_resolutionX := (theSettings.value (pre ++ "resolutionX") (QVariant.string "0")).toInt conv }
  let ccd := { ccd with
    m_resolutionY := (theSettings.value (pre ++ "resolutionY") (QVariant.string "0")).toInt conv }
  let ccd := { ccd with
    m_chipWidth := (theSettings.value (pre ++ "chip_width") (QVariant.string "0.0")).toDouble conv }
  let ccd := { ccd with
    m_chipHeight :=
      (theSettings.value (pre ++ "chip_height") (QVariant.string "0.0")).toDouble conv }
  let ccd := { ccd with
    m_pixelWidth :=
      (theSettings.value (pre ++ "pixel_width") (QVariant.string "0.0")).toDouble conv }
  let ccd := { ccd with
    m_pixelHeight :=
      (theSettings.value (pre ++ "pixel_height") (QVariant.string "0.0")).toDouble conv }
  let ccd := { ccd with
    m_has_oag := (theSettings.value (pre ++ "has_oag") (QVariant.string "false")).toBool conv }
  let ccd := { ccd with
    m_oag_prismHeight :=
      (theSettings.value (pre ++ "prism_height") (QVariant.string "0.0")).toDouble conv }
  let ccd := { ccd with
    m_oag_prismWidth :=
      (theSettings.value (pre ++ "prism_width") (QVariant.string "0.0")).toDouble conv }
  let ccd := { ccd with
    m_oag_prismDistance :=
      (theSettings.value (pre ++ "prism_distance") (QVariant.string "0.0")).toDouble conv }
  { ccd with
    m_oag_prismPosAngle :=
      (theSettings.value (pre ++ "prism_pos_angle") (QVariant.string "0.0")).toDouble conv }

end CCD

/-! ## `bind()` in each load state -/

namespace StelTexture

/-- While a load is in flight (`isLoadingImage` set or a loader attached, no
handle, no error) `bind()` returns false and does nothing. -/
theorem bind_while_loading (b : Build) (t : StelTexture) (hid : t.id = 0)
    (herr : t.errorOccured = false)
    (hbusy : t.isLoadingImage = true ∨ t.loader.isSome = true) :
    (bind b t).val = false ∧ (bind b t).tex = t ∧ (bind b t).events = [] := by
  unfold bind
  rcases hbusy with h | h
  · simp [hid, herr, h]
  · cases hl : t.loader with
    | none => simp [hl] at h
    | some l => simp [hid, herr]

/-- In the `LoadError` state `bind()` returns false and does nothing. -/
theorem bind_after_error (b : Build) (t : StelTexture) (hid : t.id = 0)
    (herr : t.errorOccured = true) :
    (bind b t).val = false ∧ (bind b t).tex = t ∧ (bind b t).events = [] := by
  unfold bind
  simp [hid, herr]

/-- Repeating a `bind()` that returns false and changes nothing, any number of times. -/
theorem bindTimes_of_fixed (b : Build) (t : StelTexture)
    (h : (bind b t).val = false ∧ (bind b t).tex = t ∧ (bind b t).events = []) (n : Nat) :
    bindTimes b n t = (List.replicate n false, t, []) := by
  induction n with
  | zero => rfl
  | succ k ih =>
    obtain ⟨hv, ht, he⟩ := h
    simp only [bindTimes, hv, ht, he, ih, List.replicate_succ, List.nil_append]

/-- The lazy-load transition of `bind()`, spelled out field by field. -/
theorem bind_from_unloaded (b : Build) (t : StelTexture) (hid : t.id = 0)
    (herr : t.errorOccured = false) (hload : t.isLoadingImage = false)
    (hnull : t.loader = none) :
    (bind b t).val = false ∧
    (bind b t).tex =
      { t with isLoadingImage := true, loader := some { path := t.fullPath, networkReply := none } } ∧
    (bind b t).events =
      [Event.newImageLoader t.fullPath 100, Event.singleShot 100 LoaderSlot.start,
        Event.connectLoader SignalName.finished TextureSlot.onImageLoaded] ∧
    (bind b t).events.countP Event.isLoaderCreation = 1 ∧
    connectionsOf (bind b t).events = [(SignalName.finished, TextureSlot.onImageLoaded)] ∧
    (bind b t).events.all (fun e => !e.isGraphicsCall) = true := by
  unfold bind
  simp [hid, herr, hload, hnull, ImageLoader.new, connectionsOf, Event.isLoaderCreation,
    Event.isGraphicsCall]

/-- C1: on a texture in the Unloaded state (`id == 0`, no error, not loading, no
loader) `bind()` returns false, sets `isLoadingImage`, attaches one new
`ImageLoader` built from `fullPath` (delay 100) and connects its `finished`
signal to `onImageLoaded`; it changes nothing else and issues no graphics call. -/
theorem bind_unloaded (b : Build) (t : StelTexture) (hid : t.id = 0)
    (herr : t.errorOccured = false) (hload : t.isLoadingImage = false)
    (hnull : t.loader = none) :
    (bind b t).val = false ∧
    (bind b t).tex =
      { t with isLoadingImage := true, loader := some { path := t.fullPath, networkReply := none } } ∧
    (bind b t).events =
      [Event.newImageLoader t.fullPath 100, Event.singleShot 100 LoaderSlot.start,
        Event.connectLoader SignalName.finished TextureSlot.onImageLoaded] ∧
    (bind b t).events.countP Event.isLoaderCreation = 1 ∧
    connectionsOf (bind b t).events = [(SignalName.finished, TextureSlot.onImageLoaded)] ∧
    (bind b t).events.all (fun e => !e.isGraphicsCall) = true :=
  bind_from_unloaded b t hid herr hload hnull

/-- Witness for C1: the freshly constructed texture for `textures/sun.png`. -/
theorem bind_unloaded_witness :
    (bind ⟨true, false, false⟩
        (new "textures/sun.png" ⟨false, GLenum.GL_LINEAR, GLenum.GL_CLAMP_TO_EDGE⟩)).val = false ∧
    (bind ⟨true, false, false⟩
        (new "textures/sun.png" ⟨false, GLenum.GL_LINEAR, GLenum.GL_CLAMP_TO_EDGE⟩)).tex.loader =
      some { path := "textures/sun.png", networkReply := none } :=
  have h := bind_unloaded ⟨true, false, false⟩
    (new "textures/sun.png" ⟨false, GLenum.GL_LINEAR, GLenum.GL_CLAMP_TO_EDGE⟩) rfl rfl rfl rfl
  ⟨h.1, by rw [h.2.1]; rfl⟩

/-- C2: `n >= 1` successive `bind()` calls on a freshly constructed texture, with
no loader completion in between, all return false and create exactly one
`ImageLoader` in total: the first call creates it, the remaining `n - 1` calls
create none. -/
theorem bind_repeated_single_loader (b : Build) (fullPath : String)
    (loadParams : StelTextureParams) (n : Nat) (hn : 1 ≤ n) :
    (bindTimes b n (new fullPath loadParams)).1 = List.replicate n false ∧
    (bindTimes b n (new fullPath loadParams)).2.2.countP Event.isLoaderCreation = 1 ∧
    (bind b (new fullPath loadParams)).events.countP Event.isLoaderCreation = 1 ∧
    (bindTimes b (n - 1) (bind b (new fullPath loadParams)).tex).2.2.countP
      Event.isLoaderCreation = 0 := by
  obtain ⟨k, rfl⟩ : ∃ k, n = k + 1 := ⟨n - 1, by omega⟩
  have h1 := bind_from_unloaded b (new fullPath loadParams) rfl rfl rfl rfl
  have hfix := bind_while_loading b (bind b (new fullPath loadParams)).tex
    (by rw [h1.2.1]; rfl) (by rw [h1.2.1]; rfl) (Or.inl (by rw [h1.2.1]))
  have hrest := bindTimes_of_fixed b _ hfix k
  refine ⟨?_, ?_, h1.2.2.2.1, ?_⟩
  · simp only [bindTimes, hrest, h1.1, List.replicate_succ]
  · simp only [bindTimes, hrest, List.append_nil]
    exact h1.2.2.2.1
  · simp only [Nat.add_sub_cancel, hrest]
    rfl

/-- Witness for C2: three calls in a row. -/
theorem bind_repeated_single_loader_witness :
    1 ≤ 3 ∧
    (bindTimes ⟨false, false, false⟩ 3
        (new "nebulae/m42.png" ⟨true, GLenum.GL_LINEAR, GLenum.GL_REPEAT⟩)).1 =
      [false, false, false] ∧
    (bindTimes ⟨false, false, false⟩ 3
        (new "nebulae/m42.png" ⟨true, GLenum.GL_LINEAR, GLenum.GL_REPEAT⟩)).2.2.countP
      Event.isLoaderCreation = 1 :=
  have h := bind_repeated_single_loader ⟨false, false, false⟩ "nebulae/m42.png"
    ⟨true, GLenum.GL_LINEAR, GLenum.GL_REPEAT⟩ 3 (by decide)
  ⟨by decide, h.1, h.2.1⟩

/-- C3: on a texture with a non-zero GPU id `bind()` returns true, issues
`glBindTexture(GL_TEXTURE_2D, id)` for exactly that id (preceded by
`glActiveTexture(GL_TEXTURE0)` on OpenGL ES 2 builds only), creates no loader and
leaves the texture unchanged; a second `bind()` binds the same id, returns true
again and leaves the same state. -/
theorem bind_loaded (b : Build) (t : StelTexture) (hid : t.id ≠ 0) :
    (bind b t).val = true ∧
    (bind b t).tex = t ∧
    (bind b t).events =
      (if b.openGLES2 then [Event.glActiveTexture GLenum.GL_TEXTURE0] else []) ++
        [Event.glBindTexture GLenum.GL_TEXTURE_2D t.id] ∧
    (bind b t).events.filterMap Event.boundTexture = [t.id] ∧
    (bind b t).events.countP Event.isLoaderCreation = 0 ∧
    (bind b (bind b t).tex).val = true ∧
    (bind b (bind b t).tex).events.filterMap Event.boundTexture =
      (bind b t).events.filterMap Event.boundTexture ∧
    (bind b (bind b t).tex).tex = (bind b t).tex := by
  have key : bind b t =
      { val := true, tex := t,
        events := (if b.openGLES2 then [Event.glActiveTexture GLenum.GL_TEXTURE0] else []) ++
          [Event.glBindTexture GLenum.GL_TEXTURE_2D t.id] } := by
    unfold bind
    simp [hid]
  have hf : ((if b.openGLES2 then [Event.glActiveTexture GLenum.GL_TEXTURE0] else []) ++
      [Event.glBindTexture GLenum.GL_TEXTURE_2D t.id]).filterMap Event.boundTexture = [t.id] := by
    cases b.openGLES2 <;> simp [Event.boundTexture]
  have hc : ((if b.openGLES2 then [Event.glActiveTexture GLenum.GL_TEXTURE0] else []) ++
      [Event.glBindTexture GLenum.GL_TEXTURE_2D t.id]).countP Event.isLoaderCreation = 0 := by
    cases b.openGLES2 <;> simp [Event.isLoaderCreation]
  simp only [key, hf, hc, and_self]

/-- Witness for C3: a texture holding GPU id 7. -/
theorem bind_loaded_witness :
    (bind ⟨true, true, false⟩
      { new "textures/moon.png" ⟨false, GLenum.GL_LINEAR, GLenum.GL_CLAMP⟩ with id := 7 }).events =
      [Event.glActiveTexture GLenum.GL_TEXTURE0, Event.glBindTexture GLenum.GL_TEXTURE_2D 7] :=
  (bind_loaded ⟨true, true, false⟩
    { new "textures/moon.png" ⟨false, GLenum.GL_LINEAR, GLenum.GL_CLAMP⟩ with id := 7 }
    (by decide)).2.2.1

/-- C4: on a texture in the LoadError state (`id == 0`, `errorOccured`) `bind()`
returns false, issues no event at all (no loader, no graphics call) and leaves
every field unchanged; hence any number of `bind()` calls returns false each
time, issues nothing and ends in the very same state. -/
theorem bind_load_error (b : Build) (t : StelTexture) (hid : t.id = 0)
    (herr : t.errorOccured = true) :
    (bind b t).val = false ∧ (bind b t).tex = t ∧ (bind b t).events = [] ∧
    ∀ n : Nat, bindTimes b n t = (List.replicate n false, t, []) :=
  have h := bind_after_error b t hid herr
  ⟨h.1, h.2.1, h.2.2, bindTimes_of_fixed b t h⟩

/-- Witness for C4: a texture whose load failed with "Unknown error". -/
theorem bind_load_error_witness :
    (bind ⟨true, false, false⟩
      { new "textures/gone.png" ⟨false, GLenum.GL_LINEAR, GLenum.GL_CLAMP⟩ with
        errorOccured := true, errorMessage := "Unknown error" }).events = [] :=
  (bind_load_error ⟨true, false, false⟩
    { new "textures/gone.png" ⟨false, GLenum.GL_LINEAR, GLenum.GL_CLAMP⟩ with
      errorOccured := true, errorMessage := "Unknown error" } rfl rfl).2.2.1

/-! ## Load completion and the state invariant -/

/-- On a texture with a GPU id `bind()` only issues binding calls. -/
theorem bind_of_loaded (b : Build) (t : StelTexture) (hid : t.id ≠ 0) :
    bind b t =
      { val := true, tex := t,
        events := (if b.openGLES2 then [Event.glActiveTexture GLenum.GL_TEXTURE0] else []) ++
          [Event.glBindTexture GLenum.GL_TEXTURE_2D t.id] } := by
  unfold bind
  simp [hid]

/-- What `onImageLoaded` has done whenever it returns: a loader was attached, and
either the image was null and the error branch of `glLoad` ran, or the image was
uploaded and the returned handle stored. -/
theorem onImageLoaded_ok (b : Build) (gl : GLEnv) (t : StelTexture) (image : QImage)
    (r : Ret Unit) (h : onImageLoaded b gl t image = Except.ok r) :
    ∃ l, t.loader = some l ∧
      ((image.isNull = true ∧
          r.tex = { t with qImage := image, errorOccured := true,
                           errorMessage := "Unknown error", isLoadingImage := false,
                           loader := none } ∧
          r.events = [Event.loadingProcessFinished true, Event.deleteLater l]) ∨
        (image.isNull = false ∧
          r.tex = { t with qImage := QImage.null, id := gl.bindTextureResult,
                           isLoadingImage := false, loader := none } ∧
          ∃ fmt opt, r.events =
            (if b.openGLES2 then [Event.glActiveTexture GLenum.GL_TEXTURE0] else []) ++
              [ Event.ctxBindTexture image GLenum.GL_TEXTURE_2D fmt opt,
                Event.glTexParameteri GLenum.GL_TEXTURE_2D GLenum.GL_TEXTURE_WRAP_S
                  t.loadParams.wrapMode,
                Event.glTexParameteri GLenum.GL_TEXTURE_2D GLenum.GL_TEXTURE_WRAP_T
                  t.loadParams.wrapMode,
                Event.loadingProcessFinished false, Event.deleteLater l ])) := by
  cases hl : t.loader with
  | none =>
    exfalso
    unfold onImageLoaded glLoad reportError at h
    cases image <;> cases hd : b.qtDebug <;> cases hc : gl.contextIsCurrent <;>
      simp [hl, hd, hc, QImage.isNull] at h
  | some l =>
    refine ⟨l, rfl, ?_⟩
    unfold onImageLoaded glLoad reportError at h
    cases image with
    | null =>
      left
      cases hd : b.qtDebug <;> simp [hl, hd, QImage.isNull] at h
      subst h
      simp [QImage.isNull]
    | pixels w hh g a =>
      right
      cases hd : b.qtDebug <;> cases hc : gl.contextIsCurrent <;>
        simp [hl, hd, hc, QImage.isNull] at h
      all_goals
        subst h
        simp [QImage.isNull]

/-- The loader balance of a history is additive. -/
theorem outstandingLoaders_append (tr ev : List Event) :
    outstandingLoaders (tr ++ ev) = outstandingLoaders tr + outstandingLoaders ev := by
  simp only [outstandingLoaders, List.countP_append]
  push_cast
  ring

/-- A completion creates no loader and schedules exactly one for deletion. -/
theorem onImageLoaded_balance (b : Build) (gl : GLEnv) (t : StelTexture) (image : QImage)
    (r : Ret Unit) (h : onImageLoaded b gl t image = Except.ok r) :
    outstandingLoaders r.events = -1 := by
  obtain ⟨l, _, hcase⟩ := onImageLoaded_ok b gl t image r h
  rcases hcase with ⟨_, _, he⟩ | ⟨_, _, fmt, opt, he⟩
  · rw [he]
    simp [outstandingLoaders, Event.isLoaderCreation, Event.isLoaderDeletion]
  · rw [he]
    cases b.openGLES2 <;>
      simp [outstandingLoaders, Event.isLoaderCreation, Event.isLoaderDeletion]

/-- The invariant carried by every reachable state and history. -/
theorem reachable_invariant (b : Build) (t : StelTexture) (tr : List Event)
    (h : Reachable b t tr) :
    ¬ (t.id ≠ 0 ∧ t.errorOccured = true) ∧
    ¬ (t.id ≠ 0 ∧ t.isLoadingImage = true) ∧
    ¬ (t.errorOccured = true ∧ t.isLoadingImage = true) ∧
    t.loader.isSome = t.isLoadingImage ∧
    outstandingLoaders tr = (if t.loader.isSome then 1 else 0) := by
  induction h with
  | fresh p lp => simp [new, outstandingLoaders]
  | @bind t tr _ ih =>
    obtain ⟨i1, i2, i3, i4, i5⟩ := ih
    by_cases hid : t.id = 0
    · cases herr : t.errorOccured with
      | true =>
        obtain ⟨_, ht, he⟩ := bind_after_error b t hid herr
        rw [ht, he, List.append_nil]
        exact ⟨i1, i2, i3, i4, i5⟩
      | false =>
        cases hload : t.isLoadingImage with
        | true =>
          obtain ⟨_, ht, he⟩ := bind_while_loading b t hid herr (Or.inl hload)
          rw [ht, he, List.append_nil]
          exact ⟨i1, i2, i3, i4, i5⟩
        | false =>
          have hnone : t.loader = none := by
            rw [hload] at i4
            cases hl : t.loader with
            | none => rfl
            | some l => simp [hl] at i4
          obtain ⟨_, ht, he, _⟩ := bind_from_unloaded b t hid herr hload hnone
          rw [ht, he, outstandingLoaders_append, i5]
          simp [hid, herr, hnone, outstandingLoaders, Event.isLoaderCreation,
            Event.isLoaderDeletion]
    · rw [bind_of_loaded b t hid, outstandingLoaders_append]
      refine ⟨i1, i2, i3, i4, ?_⟩
      rw [i5]
      cases b.openGLES2 <;>
        simp [outstandingLoaders, Event.isLoaderCreation, Event.isLoaderDeletion]
  | @completed t tr gl image r _ hsome hok ih =>
    obtain ⟨i1, i2, i3, i4, i5⟩ := ih
    have hload : t.isLoadingImage = true := by rw [← i4]; exact hsome
    have hid : t.id = 0 := by
      by_contra hne
      exact i2 ⟨hne, hload⟩
    have herr : t.errorOccured = false := by
      cases he : t.errorOccured with
      | false => rfl
      | true => exact absurd ⟨he, hload⟩ i3
    have hbal := onImageLoaded_balance b gl t image r hok
    obtain ⟨l, hl, hcase⟩ := onImageLoaded_ok b gl t image r hok
    rw [outstandingLoaders_append, hbal, i5, hsome]
    rcases hcase with ⟨_, ht, _⟩ | ⟨_, ht, _⟩
    · rw [ht]
      simp [hid]
    · rw [ht]
      simp [herr]

/-- C5: in every state reachable from a freshly constructed texture by `bind()`
calls and by completions delivered while a loader is attached, no two of
`id != 0`, `errorOccured` and `isLoadingImage` hold together, a loader is
attached exactly when `isLoadingImage` is set, a non-zero id therefore excludes
error, loading flag and loader, and the number of loaders created and not yet
scheduled for deletion is 1 when a loader is attached and 0 otherwise, so never
more than one. -/
theorem reachable_states_consistent (b : Build) (t : StelTexture) (tr : List Event)
    (h : Reachable b t tr) :
    ¬ (t.id ≠ 0 ∧ t.errorOccured = true) ∧
    ¬ (t.id ≠ 0 ∧ t.isLoadingImage = true) ∧
    ¬ (t.errorOccured = true ∧ t.isLoadingImage = true) ∧
    (t.loader ≠ none ↔ t.isLoadingImage = true) ∧
    (t.id ≠ 0 ↔
      isLoaded t = true ∧ t.errorOccured = false ∧ t.isLoadingImage = false ∧ t.loader = none) ∧
    outstandingLoaders tr = (if t.loader.isSome then 1 else 0) ∧
    outstandingLoaders tr ≤ 1 := by
  obtain ⟨i1, i2, i3, i4, i5⟩ := reachable_invariant b t tr h
  refine ⟨i1, i2, i3, ?_, ?_, i5, ?_⟩
  · rw [← i4]
    cases t.loader <;> simp
  · constructor
    · intro hid
      refine ⟨by simp [isLoaded, hid], ?_, ?_, ?_⟩
      · cases he : t.errorOccured with
        | false => rfl
        | true => exact absurd ⟨hid, he⟩ i1
      · cases hl : t.isLoadingImage with
        | false => rfl
        | true => exact absurd ⟨hid, hl⟩ i2
      · cases hl : t.isLoadingImage with
        | false =>
          rw [hl] at i4
          cases hlo : t.loader with
          | none => rfl
          | some l => simp [hlo] at i4
        | true => exact absurd ⟨hid, hl⟩ i2
    · intro hh
      simpa [isLoaded] using hh.1
  · rw [i5]
    split <;> decide

/-- Witness for C5: the state after `bind()`, a completion with a 64x64 RGBA
image uploaded as handle 5, and another `bind()`. -/
theorem reachable_states_consistent_witness :
    ∃ t tr, Reachable ⟨true, false, false⟩ t tr ∧ t.id = 5 ∧ outstandingLoaders tr ≤ 1 :=
  have hr : Reachable ⟨true, false, false⟩ _ _ :=
    Reachable.bind
      (Reachable.completed ⟨true, 5⟩ (QImage.pixels 64 64 false true)
        { val := ()
          tex := { new "stars/sun.png" ⟨false, GLenum.GL_LINEAR, GLenum.GL_CLAMP⟩ with id := 5 }
          events :=
            [ Event.ctxBindTexture (QImage.pixels 64 64 false true) GLenum.GL_TEXTURE_2D
                GLenum.GL_RGBA ⟨true, true, false⟩,
              Event.glTexParameteri GLenum.GL_TEXTURE_2D GLenum.GL_TEXTURE_WRAP_S GLenum.GL_CLAMP,
              Event.glTexParameteri GLenum.GL_TEXTURE_2D GLenum.GL_TEXTURE_WRAP_T GLenum.GL_CLAMP,
              Event.loadingProcessFinished false,
              Event.deleteLater ⟨"stars/sun.png", none⟩ ] }
        (Reachable.bind
          (Reachable.fresh "stars/sun.png" ⟨false, GLenum.GL_LINEAR, GLenum.GL_CLAMP⟩))
        rfl rfl)
  ⟨_, _, hr, rfl, (reachable_states_consistent _ _ _ hr).2.2.2.2.2.2⟩

/-- The upload branch of `glLoad`: with a non-null image held and the context
current, the call returns true and stores whatever handle `bindTexture` gave. -/
theorem glLoad_upload (b : Build) (gl : GLEnv) (t : StelTexture)
    (himg : t.qImage.isNull = false) (hctx : gl.contextIsCurrent = true) :
    ∃ g, glLoad b gl t = Except.ok g ∧ g.val = true ∧
      g.tex = { t with id := gl.bindTextureResult, qImage := QImage.null } ∧
      (∃ fmt opt, Event.ctxBindTexture t.qImage GLenum.GL_TEXTURE_2D fmt opt ∈ g.events) ∧
      Event.loadingProcessFinished false ∈ g.events ∧
      Event.loadingProcessFinished true ∉ g.events := by
  unfold glLoad
  simp only [himg, hctx, Bool.false_eq_true, if_false, Bool.not_true, Bool.and_false]
  refine ⟨_, rfl, rfl, rfl, ?_, ?_, ?_⟩
  · exact ⟨_, _, List.mem_append_right _ (List.mem_cons_self _ _)⟩
  · simp
  · cases b.openGLES2 <;> simp

/-- A completion with a non-null image on a texture with a loader attached. -/
theorem onImageLoaded_upload (b : Build) (gl : GLEnv) (t : StelTexture) (image : QImage)
    (l : ImageLoader) (hl : t.loader = some l) (himg : image.isNull = false)
    (hctx : gl.contextIsCurrent = true) :
    ∃ r, onImageLoaded b gl t image = Except.ok r ∧
      r.tex = { t with qImage := QImage.null, id := gl.bindTextureResult,
                       isLoadingImage := false, loader := none } := by
  unfold onImageLoaded glLoad
  simp [himg, hctx, hl]

/-- C6: when a non-null decoded image is delivered to `onImageLoaded` of a
reachable texture whose load is in flight (`isLoadingImage` set, loader attached)
and the upload succeeds (context current, `bindTexture` returns a non-zero
handle), `onImageLoaded` returns, `glLoad` returned true having passed that image
to `bindTexture`, and afterwards `id` is the returned handle, `errorOccured` and
`isLoadingImage` are false, `loader` is `NULL`, and the next `bind()` returns
true binding that handle. -/
theorem onImageLoaded_reaches_loaded (b : Build) (gl : GLEnv) (t : StelTexture)
    (tr : List Event) (image : QImage) (hreach : Reachable b t tr)
    (hload : t.isLoadingImage = true) (hloader : t.loader ≠ none)
    (himg : image.isNull = false) (hctx : gl.contextIsCurrent = true)
    (hhandle : gl.bindTextureResult ≠ 0) :
    ∃ r g, onImageLoaded b gl t image = Except.ok r ∧
      glLoad b gl { t with qImage := image } = Except.ok g ∧ g.val = true ∧
      (∃ fmt opt, Event.ctxBindTexture image GLenum.GL_TEXTURE_2D fmt opt ∈ g.events) ∧
      r.tex.id = gl.bindTextureResult ∧
      r.tex.errorOccured = false ∧
      r.tex.isLoadingImage = false ∧
      r.tex.loader = none ∧
      (bind b r.tex).val = true ∧
      (bind b r.tex).events.filterMap Event.boundTexture = [gl.bindTextureResult] := by
  obtain ⟨_, _, i3, _, _⟩ := reachable_invariant b t tr hreach
  have herr : t.errorOccured = false := by
    cases he : t.errorOccured with
    | false => rfl
    | true => exact absurd ⟨he, hload⟩ i3
  obtain ⟨l, hl⟩ : ∃ l, t.loader = some l := by
    cases hlo : t.loader with
    | none => exact absurd hlo hloader
    | some l => exact ⟨l, rfl⟩
  obtain ⟨r, hr, hrt⟩ := onImageLoaded_upload b gl t image l hl himg hctx
  obtain ⟨g, hg, hgv, _, hge, _⟩ := glLoad_upload b gl { t with qImage := image } himg hctx
  have hid : r.tex.id ≠ 0 := by rw [hrt]; exact hhandle
  have hb := bind_of_loaded b r.tex hid
  refine ⟨r, g, hr, hg, hgv, hge, by rw [hrt], by rw [hrt]; exact herr, by rw [hrt],
    by rw [hrt], by rw [hb], ?_⟩
  rw [hb, hrt]
  cases b.openGLES2 <;> simp [Event.boundTexture]

/-- Witness for C6: a 64x64 RGBA image arrives after the first `bind()` and is
uploaded as handle 9. -/
theorem onImageLoaded_reaches_loaded_witness :
    ∃ r, onImageLoaded ⟨true, false, false⟩ ⟨true, 9⟩
          (bind ⟨true, false, false⟩
            (new "stars/sun.png" ⟨false, GLenum.GL_LINEAR, GLenum.GL_CLAMP⟩)).tex
          (QImage.pixels 64 64 false true) = Except.ok r ∧
      r.tex.id = 9 ∧ (bind ⟨true, false, false⟩ r.tex).val = true :=
  have h := onImageLoaded_reaches_loaded ⟨true, false, false⟩ ⟨true, 9⟩ _ _
    (QImage.pixels 64 64 false true)
    (Reachable.bind
      (Reachable.fresh "stars/sun.png" ⟨false, GLenum.GL_LINEAR, GLenum.GL_CLAMP⟩))
    rfl (by decide) rfl rfl (by decide)
  h.elim fun r hr => hr.elim fun _ hg => ⟨r, hg.1, hg.2.2.2.2.1, hg.2.2.2.2.2.2.2.2.1⟩

/-! ## Failing loads -/

/-- C7 (the code at the failing input): for a local path whose file cannot be
read, `directLoad` still emits `finished` with the null image; in a build that
checks `Q_ASSERT` the load started by `bind()` stops on the assertion
`!qImage.isNull()` of `onImageLoaded`, and only a build without assertions goes
on to `glLoad`, which records "Unknown error" and leaves `id == 0`. -/
theorem missing_file_violates_assertion :
    bindAndLoad ⟨true, false, false⟩ ⟨true, 1⟩
        ⟨fun _ => QImage.null, fun _ => ⟨NetworkError.NoError, "", []⟩, fun _ => QImage.null⟩
        (new "textures/missing.png" ⟨false, GLenum.GL_LINEAR, GLenum.GL_CLAMP⟩) =
      Except.error (Fault.assertion "!qImage.isNull()") ∧
    (bindAndLoad ⟨false, false, false⟩ ⟨true, 1⟩
        ⟨fun _ => QImage.null, fun _ => ⟨NetworkError.NoError, "", []⟩, fun _ => QImage.null⟩
        (new "textures/missing.png" ⟨false, GLenum.GL_LINEAR, GLenum.GL_CLAMP⟩)).toOption.map
        (fun r => (r.1.errorOccured, r.1.errorMessage, r.1.id, r.1.isLoadingImage)) =
      some (true, "Unknown error", 0, false) := by
  constructor <;> rfl

/-- C8 (the code at the failing input): after `bind()` on an `http://` texture,
a reply that finishes with a network error makes the loader emit `error`, which
`bind()` never connected, and a reply with undecodable data makes it emit
nothing; in both cases the texture is left with `errorOccured == false`,
`isLoadingImage == true` and the loader still attached. -/
theorem network_failure_not_delivered :
    (bindAndLoad ⟨true, false, false⟩ ⟨true, 1⟩
        ⟨fun _ => QImage.null, fun _ => ⟨NetworkError.code 203, "Not Found", []⟩,
          fun _ => QImage.null⟩
        (new "http://example.test/missing.png"
          ⟨false, GLenum.GL_LINEAR, GLenum.GL_CLAMP⟩)).toOption.map
        (fun r => (r.1.errorOccured, r.1.isLoadingImage, r.1.loader.isSome, r.1.id)) =
      some (false, true, true, 0) ∧
    (bindAndLoad ⟨true, false, false⟩ ⟨true, 1⟩
        ⟨fun _ => QImage.null, fun _ => ⟨NetworkError.NoError, "", [0, 1, 2]⟩,
          fun _ => QImage.null⟩
        (new "http://example.test/garbage.png"
          ⟨false, GLenum.GL_LINEAR, GLenum.GL_CLAMP⟩)).toOption.map
        (fun r => (r.1.errorOccured, r.1.isLoadingImage, r.1.loader.isSome, r.1.id)) =
      some (false, true, true, 0) ∧
    ImageLoader.run
        ⟨fun _ => QImage.null, fun _ => ⟨NetworkError.code 203, "Not Found", []⟩,
          fun _ => QImage.null⟩
        ⟨"http://example.test/missing.png", none⟩ =
      Except.ok (⟨"http://example.test/missing.png", none⟩, [LoaderSignal.error "Not Found"]) ∧
    ImageLoader.run
        ⟨fun _ => QImage.null, fun _ => ⟨NetworkError.NoError, "", [0, 1, 2]⟩,
          fun _ => QImage.null⟩
        ⟨"http://example.test/garbage.png", none⟩ =
      Except.ok (⟨"http://example.test/garbage.png", none⟩, []) := by
  refine ⟨?_, ?_, ?_, ?_⟩ <;> rfl

/-- C9 (the code at the failing input): with a non-null image held and
`bindTexture` returning 0, `glLoad` returns true and leaves `errorOccured` false
and `errorMessage` empty, with `id == 0`.  Through the whole lazy load of a
readable 64x64 file whose upload returns 0, success is signalled
(`loadingProcessFinished(false)`), the texture ends in the Unloaded state, and
the next `bind()` creates another loader. -/
theorem glLoad_zero_handle_reports_success :
    (glLoad ⟨true, false, false⟩ ⟨true, 0⟩
        { new "stars/sun.png" ⟨false, GLenum.GL_LINEAR, GLenum.GL_CLAMP⟩ with
          isLoadingImage := true, loader := some ⟨"stars/sun.png", none⟩,
          qImage := QImage.pixels 64 64 false true }).toOption.map
        (fun r => (r.val, r.tex.errorOccured, r.tex.errorMessage, r.tex.id)) =
      some (true, false, "", 0) ∧
    (bindAndLoad ⟨true, false, false⟩ ⟨true, 0⟩
        ⟨fun _ => QImage.pixels 64 64 false true, fun _ => ⟨NetworkError.NoError, "", []⟩,
          fun _ => QImage.null⟩
        (new "stars/sun.png" ⟨false, GLenum.GL_LINEAR, GLenum.GL_CLAMP⟩)).toOption.map
        (fun r => (isUnloaded r.1, isLoadError r.1, r.1.errorMessage,
          decide (Event.loadingProcessFinished false ∈ r.2),
          decide (Event.loadingProcessFinished true ∈ r.2),
          (bind ⟨true, false, false⟩ r.1).events.countP Event.isLoaderCreation)) =
      some (true, false, "", true, false, 1) := by
  constructor
  · rfl
  · decide

/-! ## The decoded pixel buffer -/

/-- Every way `glLoad` returns leaves no image held. -/
theorem glLoad_releases_image (b : Build) (gl : GLEnv) (t : StelTexture) (g : Ret Bool)
    (h : glLoad b gl t = Except.ok g) : g.tex.qImage = QImage.null := by
  unfold glLoad reportError at h
  cases hq : t.qImage with
  | null =>
    simp [hq, QImage.isNull] at h
    subst h
    rfl
  | pixels w hh gr a =>
    cases hd : b.qtDebug <;> cases hc : gl.contextIsCurrent <;>
      simp [hq, hd, hc, QImage.isNull] at h
    all_goals
      subst h
      rfl

/-- The member `qImage` is not written by `bind()`. -/
theorem bind_keeps_image (b : Build) (t : StelTexture) :
    (bind b t).tex.qImage = t.qImage := by
  unfold bind
  split
  · rfl
  · split
    · rfl
    · split <;> rfl

/-- The member `qImage` is not written by `getDimensions`. -/
theorem getDimensions_keeps_image (probe : String → Option (Int × Int)) (t : StelTexture)
    (w h : Int) : (getDimensions probe t w h).tex.qImage = t.qImage := by
  unfold getDimensions
  split
  · split
    · rfl
    · split <;> rfl
  · rfl

/-- C10: in every state reachable from a freshly constructed texture by calls of
`bind()`, `onImageLoaded()`, `glLoad()`, `getDimensions()` and `reportError()`
that have returned, the decoded image `qImage` is null; in particular a texture
with a non-zero GPU id holds no pixel buffer. -/
theorem qImage_null_between_calls (b : Build) (t : StelTexture)
    (h : ReachableByCalls b t) :
    t.qImage = QImage.null ∧ (t.id ≠ 0 → t.qImage.isNull = true) := by
  have key : t.qImage = QImage.null := by
    induction h with
    | fresh p lp => rfl
    | bind _ ih => rw [bind_keeps_image]; exact ih
    | onImageLoaded gl image r _ hok _ =>
      obtain ⟨l, _, hcase⟩ := onImageLoaded_ok b gl _ image r hok
      rcases hcase with ⟨hn, ht, _⟩ | ⟨_, ht, _⟩
      · rw [ht]
        cases image with
        | null => rfl
        | pixels w hh g a => simp [QImage.isNull] at hn
      · rw [ht]
    | glLoad gl r _ hok _ => exact glLoad_releases_image b gl _ r hok
    | getDimensions probe w hh _ ih => rw [getDimensions_keeps_image]; exact ih
    | reportError msg _ ih => exact ih
  exact ⟨key, fun _ => by rw [key]; rfl⟩

/-- Witness for C10: the Loaded state reached by `bind()`, the delivery of a
64x64 RGBA image uploaded as handle 5, and a `getDimensions` call. -/
theorem qImage_null_between_calls_witness :
    ∃ t, ReachableByCalls ⟨true, false, false⟩ t ∧ t.id = 5 ∧ t.qImage = QImage.null :=
  have hr : ReachableByCalls ⟨true, false, false⟩ _ :=
    ReachableByCalls.getDimensions (fun _ => some (64, 64)) 0 0
      (ReachableByCalls.onImageLoaded ⟨true, 5⟩ (QImage.pixels 64 64 false true)
        { val := ()
          tex := { new "stars/sun.png" ⟨false, GLenum.GL_LINEAR, GLenum.GL_CLAMP⟩ with id := 5 }
          events :=
            [ Event.ctxBindTexture (QImage.pixels 64 64 false true) GLenum.GL_TEXTURE_2D
                GLenum.GL_RGBA ⟨true, true, false⟩,
              Event.glTexParameteri GLenum.GL_TEXTURE_2D GLenum.GL_TEXTURE_WRAP_S GLenum.GL_CLAMP,
              Event.glTexParameteri GLenum.GL_TEXTURE_2D GLenum.GL_TEXTURE_WRAP_T GLenum.GL_CLAMP,
              Event.loadingProcessFinished false,
              Event.deleteLater ⟨"stars/sun.png", none⟩ ] }
        (ReachableByCalls.bind
          (ReachableByCalls.fresh "stars/sun.png" ⟨false, GLenum.GL_LINEAR, GLenum.GL_CLAMP⟩))
        rfl)
  ⟨_, hr, rfl, (qImage_null_between_calls _ _ hr).1⟩

end StelTexture

/-! ## Destruction -/

namespace StelTexture

/-- C11 (counterexample): destroying a texture with id 7 that `glIsTexture`
does not recognise issues no `deleteTexture` call at all; the id is just
cleared after the warning. -/
theorem destructor_skips_unrecognised_texture :
    (destructor false
        { new "textures/moon.png" ⟨false, GLenum.GL_LINEAR, GLenum.GL_CLAMP⟩ with
          id := 7 }).events =
      [Event.makeMainGLContextCurrent, Event.glIsTexture 7, Event.glGetError] ∧
    (destructor false
        { new "textures/moon.png" ⟨false, GLenum.GL_LINEAR, GLenum.GL_CLAMP⟩ with
          id := 7 }).events.countP Event.isTextureDeletion = 0 ∧
    (destructor false
        { new "textures/moon.png" ⟨false, GLenum.GL_LINEAR, GLenum.GL_CLAMP⟩ with
          id := 7 }).tex.id = 0 := by
  refine ⟨?_, ?_, ?_⟩ <;> rfl

/-- C11 (amended): destroying a texture with `id != 0` issues exactly one
`deleteTexture(id)` call when `glIsTexture(id)` recognises the id and none when
it does not; with `id == 0` (also while a load is in flight) the destructor
issues no graphics call.  In every case `id` is 0 and `loader` is `NULL`
afterwards, the attached loader, if any, is scheduled for deletion exactly once
and no loader is created; the loader's own destructor issues no graphics call. -/
theorem destructor_releases (isTexture : Bool) (t : StelTexture) :
    (t.id ≠ 0 →
      (destructor isTexture t).events.countP Event.isTextureDeletion =
        (if isTexture then 1 else 0) ∧
      (isTexture = true → Event.ctxDeleteTexture t.id ∈ (destructor isTexture t).events)) ∧
    (t.id = 0 → (destructor isTexture t).events.all (fun e => !e.isGraphicsCall) = true) ∧
    (destructor isTexture t).tex.id = 0 ∧
    (destructor isTexture t).tex.loader = none ∧
    (destructor isTexture t).events.countP Event.isLoaderDeletion =
      (if t.loader.isSome then 1 else 0) ∧
    (∀ l, t.loader = some l → Event.deleteLater l ∈ (destructor isTexture t).events) ∧
    (destructor isTexture t).events.countP Event.isLoaderCreation = 0 ∧
    (∀ l : ImageLoader, (ImageLoader.destructor l).all (fun e => !e.isGraphicsCall) = true) := by
  refine ⟨?_, ?_, ?_, ?_, ?_, ?_, ?_, ?_⟩
  · intro hid
    unfold destructor
    cases hl : t.loader <;> cases isTexture <;>
      simp [hid, hl, Event.isTextureDeletion]
  · intro hid
    unfold destructor
    cases hl : t.loader <;> simp [hid, hl, Event.isGraphicsCall]
  · unfold destructor
    by_cases hid : t.id = 0 <;> cases hl : t.loader <;> simp [hid, hl]
  · unfold destructor
    by_cases hid : t.id = 0 <;> cases hl : t.loader <;> simp [hid, hl]
  · unfold destructor
    by_cases hid : t.id = 0 <;> cases hl : t.loader <;> cases isTexture <;>
      simp [hid, hl, Event.isLoaderDeletion]
  · intro l hl
    unfold destructor
    by_cases hid : t.id = 0 <;> simp [hid, hl]
  · unfold destructor
    by_cases hid : t.id = 0 <;> cases hl : t.loader <;> cases isTexture <;>
      simp [hid, hl, Event.isLoaderCreation]
  · intro l
    unfold ImageLoader.destructor
    cases l.networkReply <;> simp [Event.isGraphicsCall]

/-- Witness for C11 (amended): a Loaded texture with id 7 that `glIsTexture`
recognises. -/
theorem destructor_releases_witness :
    (destructor true
        { new "textures/moon.png" ⟨false, GLenum.GL_LINEAR, GLenum.GL_CLAMP⟩ with
          id := 7 }).events.countP Event.isTextureDeletion = 1 :=
  ((destructor_releases true
      { new "textures/moon.png" ⟨false, GLenum.GL_LINEAR, GLenum.GL_CLAMP⟩ with id := 7 }).1
    (by decide)).1

end StelTexture

/-- C12 (the code at the failing input): destroying a `ManagedSTexture` whose
`loadState` is `LOADING_IMAGE` runs `assert(0)`, which fails in every build
that checks assertions; in the three other load states, and with `NDEBUG`
defined, the destructor completes. -/
theorem managedSTexture_destructor_asserts_while_loading :
    ManagedSTexture.destructor false ⟨LoadState.LOADING_IMAGE, -1, DynamicRangeMode.LINEAR⟩ =
      Except.error (Fault.assertion "0") ∧
    ManagedSTexture.destructor false ⟨LoadState.UNLOADED, -1, DynamicRangeMode.LINEAR⟩ =
      Except.ok () ∧
    ManagedSTexture.destructor false ⟨LoadState.LOADED, -1, DynamicRangeMode.LINEAR⟩ =
      Except.ok () ∧
    ManagedSTexture.destructor false ⟨LoadState.LOAD_ERROR, -1, DynamicRangeMode.LINEAR⟩ =
      Except.ok () ∧
    ManagedSTexture.destructor true ⟨LoadState.LOADING_IMAGE, -1, DynamicRangeMode.LINEAR⟩ =
      Except.ok () := by
  refine ⟨?_, ?_, ?_, ?_, ?_⟩ <;> rfl

/-! ## The renderer's texture factory -/

namespace StelRenderer

/-- C13 (counterexample): a call with a non-empty local file name ending in
`.pvr` meets both stated preconditions, yet with assertions checked it fails the
first assertion instead of being forwarded; and with assertions compiled out an
empty file name is forwarded like any other. -/
theorem createTextureBackend_rejects_pvr :
    ("nebulae/m42.pvr".isEmpty = false ∧ ImageLoader.isHttp "nebulae/m42.pvr" = false) ∧
    createTextureBackend ⟨true, false, false⟩ (fun _ _ _ => some 1) "nebulae/m42.pvr"
        ⟨false, GLenum.GL_LINEAR, GLenum.GL_CLAMP⟩ TextureLoadingMode.LazyAsynchronous =
      Except.error (Fault.assertion "!filename.endsWith(\".pvr\")") ∧
    createTextureBackend ⟨false, false, false⟩ (fun _ _ _ => some 1) ""
        ⟨false, GLenum.GL_LINEAR, GLenum.GL_CLAMP⟩ TextureLoadingMode.Normal =
      Except.ok (some 1) := by
  refine ⟨⟨?_, ?_⟩, ?_, ?_⟩ <;> rfl

/-- C13 (amended): in a build that checks `Q_ASSERT_X`, `createTextureBackend`
stops on a failed assertion for every file name that ends in `.pvr`, every empty
file name and every `http://` file name requested with
`TextureLoadingMode_Normal`; every other call, and every call in a build without
assertions, is forwarded with unchanged arguments to `createTextureBackend_`
and returns its result. -/
theorem createTextureBackend_contract {β : Type} (b : Build)
    (impl : String → StelTextureParams → TextureLoadingMode → Option β)
    (filename : String) (params : StelTextureParams) (loadingMode : TextureLoadingMode) :
    (b.qtDebug = true →
      (endsWithPvr filename = true ∨ filename.isEmpty = true ∨
        (ImageLoader.isHttp filename = true ∧ loadingMode = TextureLoadingMode.Normal)) →
      ∃ c, createTextureBackend b impl filename params loadingMode =
        Except.error (Fault.assertion c)) ∧
    ((b.qtDebug = false ∨
        (endsWithPvr filename = false ∧ filename.isEmpty = false ∧
          ¬ (ImageLoader.isHttp filename = true ∧ loadingMode = TextureLoadingMode.Normal))) →
      createTextureBackend b impl filename params loadingMode =
        Except.ok (impl filename params loadingMode)) := by
  constructor
  · intro hd hv
    unfold createTextureBackend
    cases hp : endsWithPvr filename
    · cases he : filename.isEmpty
      · rcases hv with h | h | ⟨h1, h2⟩
        · simp [hp] at h
        · simp [he] at h
        · simp [hd, hp, he, h1, h2]
      · simp [hd, hp, he]
    · simp [hd, hp]
  · intro h
    unfold createTextureBackend
    rcases h with hd | ⟨hp, he, hn⟩
    · simp [hd]
    · have hn' : (ImageLoader.isHttp filename &&
          decide (loadingMode = TextureLoadingMode.Normal)) = false := by
        cases hh : ImageLoader.isHttp filename
        · simp
        · simp only [Bool.true_and, decide_eq_false_iff_not]
          exact fun hm => hn ⟨hh, hm⟩
      simp [hp, he, hn']

/-- Witness for C13 (amended): an `http://` texture requested lazily is forwarded. -/
theorem createTextureBackend_contract_witness :
    createTextureBackend ⟨true, false, false⟩ (fun _ _ _ => some 1)
        "http://example.test/sun.png" ⟨false, GLenum.GL_LINEAR, GLenum.GL_CLAMP⟩
        TextureLoadingMode.LazyAsynchronous = Except.ok (some 1) :=
  (createTextureBackend_contract ⟨true, false, false⟩ (fun _ _ _ => some 1)
    "http://example.test/sun.png" ⟨false, GLenum.GL_LINEAR, GLenum.GL_CLAMP⟩
    TextureLoadingMode.LazyAsynchronous).2
    (Or.inr ⟨by decide, by decide, by decide⟩)

end StelRenderer

/-! ## Dimension queries -/

namespace StelTexture

/-- With both dimensions cached, `getDimensions` answers from the cache alone. -/
theorem getDimensions_cached (probe : String → Option (Int × Int)) (t : StelTexture)
    (a b : Int) (hw : 0 ≤ t.width) (hh : 0 ≤ t.height) :
    (getDimensions probe t a b).val = (true, t.width, t.height) ∧
    (getDimensions probe t a b).tex = t ∧ (getDimensions probe t a b).events = [] := by
  unfold getDimensions
  have h1 : ¬ t.width < 0 := by omega
  have h2 : ¬ t.height < 0 := by omega
  simp [h1, h2]

/-- C14: `getDimensions(w, h)` returns true with the cached values when both are
non-negative; otherwise it takes them from the held image if there is one, and
otherwise from a header probe of `fullPath`, caching what it found; it returns
false exactly when nothing is cached, no image is held and the probe cannot
read the file, and then the arguments and the texture are unchanged.  It never
creates a loader, never issues a graphics call and never changes `loader`,
`isLoadingImage`, `errorOccured`, `id` or `qImage`. -/
theorem getDimensions_contract (probe : String → Option (Int × Int)) (t : StelTexture)
    (a b : Int) :
    (0 ≤ t.width ∧ 0 ≤ t.height →
      (getDimensions probe t a b).val = (true, t.width, t.height) ∧
      (getDimensions probe t a b).tex = t ∧ (getDimensions probe t a b).events = []) ∧
    (¬ (0 ≤ t.width ∧ 0 ≤ t.height) → t.qImage.isNull = false →
      (getDimensions probe t a b).val = (true, t.qImage.width, t.qImage.height) ∧
      (getDimensions probe t a b).tex =
        { t with width := t.qImage.width, height := t.qImage.height } ∧
      (getDimensions probe t a b).events = []) ∧
    (¬ (0 ≤ t.width ∧ 0 ≤ t.height) → t.qImage.isNull = true →
      ∀ size, probe t.fullPath = some size →
        (getDimensions probe t a b).val = (true, size.1, size.2) ∧
        (getDimensions probe t a b).tex = { t with width := size.1, height := size.2 }) ∧
    ((getDimensions probe t a b).val.1 = false ↔
      ¬ (0 ≤ t.width ∧ 0 ≤ t.height) ∧ t.qImage.isNull = true ∧ probe t.fullPath = none) ∧
    ((getDimensions probe t a b).val.1 = false →
      (getDimensions probe t a b).val = (false, a, b) ∧ (getDimensions probe t a b).tex = t) ∧
    (getDimensions probe t a b).events.countP Event.isLoaderCreation = 0 ∧
    (getDimensions probe t a b).events.all (fun e => !e.isGraphicsCall) = true ∧
    (getDimensions probe t a b).tex.loader = t.loader ∧
    (getDimensions probe t a b).tex.isLoadingImage = t.isLoadingImage ∧
    (getDimensions probe t a b).tex.errorOccured = t.errorOccured ∧
    (getDimensions probe t a b).tex.id = t.id ∧
    (getDimensions probe t a b).tex.qImage = t.qImage := by
  by_cases hc : 0 ≤ t.width ∧ 0 ≤ t.height
  · obtain ⟨hv, ht, he⟩ := getDimensions_cached probe t a b hc.1 hc.2
    simp [hv, ht, he, hc]
  · have hcond : (decide (t.width < 0) || decide (t.height < 0)) = true := by
      simp only [Bool.or_eq_true, decide_eq_true_eq]
      by_contra hn
      exact hc ⟨by omega, by omega⟩
    unfold getDimensions
    simp only [hcond, if_true]
    cases hq : t.qImage.isNull
    · simp [hc, Event.isLoaderCreation]
    · cases hp : probe t.fullPath <;>
        simp [hc, Event.isLoaderCreation, Event.isGraphicsCall]

/-- Witness for C14: a fresh texture whose file header reports 64x64. -/
theorem getDimensions_contract_witness :
    (getDimensions (fun _ => some (64, 64))
        (new "stars/sun.png" ⟨false, GLenum.GL_LINEAR, GLenum.GL_CLAMP⟩) 0 0).val =
      (true, 64, 64) :=
  ((getDimensions_contract (fun _ => some (64, 64))
      (new "stars/sun.png" ⟨false, GLenum.GL_LINEAR, GLenum.GL_CLAMP⟩) 0 0).2.2.1
    (by decide) rfl (64, 64) rfl).1

/-- C15 (the code at the failing input): a texture for an `http://` URL whose
reply decodes to a 64x64 RGBA image is uploaded as handle 5, but `glLoad` has
released the image without recording its size, so the cached width and height
are still -1 and the first `getDimensions` call afterwards, whose header probe
cannot read a URL, returns false and leaves its arguments untouched. -/
theorem getDimensions_after_network_load_fails :
    (bindAndLoad ⟨true, false, false⟩ ⟨true, 5⟩
        ⟨fun _ => QImage.null, fun _ => ⟨NetworkError.NoError, "", [137, 80, 78, 71]⟩,
          fun _ => QImage.pixels 64 64 false true⟩
        (new "http://example.test/sun.png"
          ⟨false, GLenum.GL_LINEAR, GLenum.GL_CLAMP⟩)).toOption.map
        (fun r => (r.1.id, r.1.width, r.1.height, r.1.qImage,
          (getDimensions (fun _ => none) r.1 0 0).val)) =
      some (5, -1, -1, QImage.null, (false, 0, 0)) := by
  rfl

end StelTexture

/-! ## Command-line options with an argument -/

namespace StelUtils

/-- The index returned by `find` skips a prefix that does not contain the value. -/
theorem find_append_of_absent (v : String) (pre rest : List String)
    (h : ∀ x ∈ pre, x ≠ v) : find v (pre ++ rest) = pre.length + find v rest := by
  induction pre with
  | nil => simp
  | cons x xs ih =>
    have hx : x ≠ v := h x (List.mem_cons_self _ _)
    have hxs := ih (fun y hy => h y (List.mem_cons_of_mem _ hy))
    rw [List.cons_append, find, if_neg hx, hxs, List.length_cons]
    omega

/-- No entry before the index returned by `find` equals the value. -/
theorem find_take_absent (v : String) (args : List String) :
    ∀ x ∈ args.take (find v args), x ≠ v := by
  induction args with
  | nil => simp [find]
  | cons y ys ih =>
    by_cases hy : y = v
    · simp [find, hy]
    · intro x hx
      simp only [find, hy, if_false, List.take_succ_cons, List.mem_cons] at hx
      rcases hx with rfl | hx
      · exact hy
      · exact ih x hx

/-- At the index returned by `find` the list ends or holds the value. -/
theorem find_drop (v : String) (args : List String) :
    find v (args.drop (find v args)) = 0 := by
  induction args with
  | nil => simp [find]
  | cons y ys ih =>
    by_cases hy : y = v
    · simp [find, hy]
    · simp only [find, hy, if_false, List.drop_succ_cons]
      exact ih

/-- The entry right after a prefix. -/
theorem getD_at_prefix_length (pre rest : List String) (x : String) :
    (pre ++ x :: rest).getD pre.length "" = x := by
  induction pre with
  | nil => rfl
  | cons a as ih => simpa using ih

/-- The second entry after a prefix. -/
theorem getD_succ_prefix_length (pre rest : List String) (x y : String) :
    (pre ++ x :: y :: rest).getD (pre.length + 1) "" = y := by
  induction pre with
  | nil => rfl
  | cons a as ih => simpa using ih

/-- Dropping a prefix and one more entry. -/
theorem drop_prefix_length_one (pre rest : List String) (x : String) :
    (pre ++ x :: rest).drop (pre.length + 1) = rest := by
  induction pre with
  | nil => rfl
  | cons a as ih => simp

/-- Dropping a prefix and two more entries. -/
theorem drop_prefix_length_two (pre rest : List String) (x y : String) :
    (pre ++ x :: y :: rest).drop (pre.length + 1 + 1) = rest := by
  induction pre with
  | nil => rfl
  | cons a as ih => simp

/-- The loop steps over entries that are neither the option nor an assignment. -/
theorem loop_skip {T : Type} (parse : String → Option T) (shortOpt longOpt : String)
    (d : T) (modify : Bool) (L fuel : Nat) (pre : List String) :
    ∀ (done rest : List String),
      (∀ x ∈ pre, isOptionEntry shortOpt longOpt x = false ∧
        isAssignmentEntry longOpt x = false) →
      argsHaveOptionWithArgLoop parse (done ++ pre ++ rest) shortOpt longOpt d modify L
          (fuel + pre.length) done.length =
        argsHaveOptionWithArgLoop parse (done ++ pre ++ rest) shortOpt longOpt d modify L
          fuel (done ++ pre).length := by
  induction pre with
  | nil => intro done rest _; simp
  | cons x xs ih =>
    intro done rest h
    have hx := h x (List.mem_cons_self _ _)
    have hcur : (done ++ x :: xs ++ rest).getD done.length "" = x := by
      rw [List.append_assoc, List.cons_append]
      exact getD_at_prefix_length done (xs ++ rest) x
    have hfuel : fuel + (x :: xs).length = (fuel + xs.length) + 1 := by
      simp only [List.length_cons]; omega
    rw [hfuel]
    conv_lhs => unfold argsHaveOptionWithArgLoop
    simp only [hcur, hx.1, hx.2, Bool.false_eq_true, if_false]
    have hih := ih (done ++ [x]) rest (fun y hy => h y (List.mem_cons_of_mem _ hy))
    simp only [List.append_assoc, List.singleton_append, List.length_append,
      List.length_singleton, List.length_cons] at hih ⊢
    exact hih

/-- After a prefix of entries that are skipped, the whole call is the loop
standing at the end of that prefix. -/
theorem argsHaveOptionWithArg_skipping {T : Type} (parse : String → Option T)
    (shortOpt longOpt : String) (d : T) (modify : Bool) (pre rest : List String)
    (hpre : ∀ x ∈ pre, x ≠ "--" ∧ isOptionEntry shortOpt longOpt x = false ∧
      isAssignmentEntry longOpt x = false) :
    argsHaveOptionWithArg parse (pre ++ rest) shortOpt longOpt d modify =
      argsHaveOptionWithArgLoop parse (pre ++ rest) shortOpt longOpt d modify
        (pre.length + find "--" rest) (find "--" rest) pre.length := by
  unfold argsHaveOptionWithArg
  have hL := find_append_of_absent "--" pre rest (fun x hx => (hpre x hx).1)
  simp only [hL]
  have h := loop_skip parse shortOpt longOpt d modify (pre.length + find "--" rest)
    (find "--" rest) pre [] rest (fun x hx => (hpre x hx).2)
  simp only [List.nil_append, List.length_nil] at h
  rw [Nat.add_comm (find "--" rest) pre.length] at h
  exact h

end StelUtils

namespace StelUtils

/-- Taking as many characters as a prefix has gives the prefix back. -/
theorem take_length_append (l r : List Char) : (l ++ r).take l.length = l := by
  induction l with
  | nil => simp
  | cons c cs ih => simp

/-- Dropping as many characters as a prefix has leaves the rest. -/
theorem drop_length_append (l r : List Char) : (l ++ r).drop l.length = r := by
  induction l with
  | nil => simp
  | cons c cs ih => simp

/-- Dropping a prefix and the character after it. -/
theorem drop_length_succ_append (l r : List Char) (c : Char) :
    (l ++ c :: r).drop (l.length + 1) = r := by
  induction l with
  | nil => simp
  | cons c cs ih => simp

/-- The characters of `longOpt=arg`. -/
theorem toList_assignment (longOpt a : String) :
    (longOpt ++ "=" ++ a).toList = longOpt.toList ++ '=' :: a.toList := by
  simp [String.toList]

/-- An entry `longOpt=arg` passes the test of the assignment branch. -/
theorem isAssignmentEntry_assignment (longOpt a : String) :
    isAssignmentEntry longOpt (longOpt ++ "=" ++ a) = true := by
  have hlen : longOpt.length = longOpt.toList.length := rfl
  unfold isAssignmentEntry substr
  rw [toList_assignment, hlen, List.drop_zero, take_length_append, drop_length_append]
  have h1 : String.mk longOpt.toList = longOpt := rfl
  have h2 : String.mk (List.take 1 ('=' :: a.toList)) = "=" := rfl
  rw [h1, h2]
  simp

/-- Erasing `longOpt=` from an entry `longOpt=arg` leaves `arg`. -/
theorem drop_assignment (longOpt a : String) :
    String.mk ((longOpt ++ "=" ++ a).toList.drop (longOpt.length + 1)) = a := by
  have hlen : longOpt.length = longOpt.toList.length := rfl
  rw [toList_assignment, hlen, drop_length_succ_append]
  rfl

/-- An entry `longOpt=arg` is not the bare long option. -/
theorem assignment_ne_longOpt (longOpt a : String) : longOpt ++ "=" ++ a ≠ longOpt := by
  intro h
  have h2 := congrArg String.length h
  simp only [String.length_append] at h2
  have h3 : "=".length = 1 := rfl
  omega

/-- An entry `longOpt=arg` is not the separator `--`. -/
theorem assignment_ne_dashes (longOpt a : String) : longOpt ++ "=" ++ a ≠ "--" := by
  intro h
  have h2 := congrArg String.toList h
  rw [toList_assignment] at h2
  have hm : '=' ∈ "--".toList := by
    rw [← h2]; simp
  simp at hm

/-- C17 (counterexample): the call stops at the first entry that is the option,
whether or not its argument converts.  With `-n abc` before `-n 42` it throws
`optarg_type` instead of returning 42, and with `--number=abc` before
`--number=42` it throws as well; with `--` as the entry after `-n` it throws
`no_optarg` although `--` converts to a string; and an entry `--number=42` that
is itself `shortOpt` is taken as the bare option and throws `no_optarg`. -/
theorem argsHaveOptionWithArg_stops_at_first_entry :
    argsHaveOptionWithArg (fun s => if s = "42" then some (42 : Int) else none)
        ["stellarium", "-n", "abc", "-n", "42"] "-n" "--number" 0 true =
      (Except.error "optarg_type", ["stellarium", "-n", "abc", "-n", "42"]) ∧
    argsHaveOptionWithArg (fun s => if s = "42" then some (42 : Int) else none)
        ["stellarium", "--number=abc", "--number=42"] "-n" "--number" 0 true =
      (Except.error "optarg type", ["stellarium", "--number=abc", "--number=42"]) ∧
    argsHaveOptionWithArg (fun s => some s) ["stellarium", "-n", "--", "x"] "-n" "--number"
        "" true =
      (Except.error "no_optarg", ["stellarium", "-n", "--", "x"]) ∧
    argsHaveOptionWithArg (fun s => if s = "42" then some (42 : Int) else none)
        ["stellarium", "--number=42"] "--number=42" "--number" 0 true =
      (Except.error "no_optarg", ["stellarium", "--number=42"]) := by
  refine ⟨?_, ?_, ?_, ?_⟩ <;> rfl

/-- C17 (amended): let the first entry before `--` that is the option in any
form (all earlier entries being neither `--`, nor `shortOpt`, nor `longOpt`, nor
of the form `longOpt=...`) have an argument that converts to `T`.  For the
separated forms `shortOpt arg` and `longOpt arg`, both entries standing before
`--`, and for an entry `longOpt=arg` that is not itself `shortOpt`, the call
returns the converted argument; with `modify` it removes exactly the consumed
entries (two, respectively one) and keeps all others in order, without `modify`
it leaves `args` unchanged. -/
theorem argsHaveOptionWithArg_first_occurrence {T : Type} (parse : String → Option T)
    (shortOpt longOpt : String) (d : T) (modify : Bool) (pre post : List String)
    (hpre : ∀ x ∈ pre, x ≠ "--" ∧ isOptionEntry shortOpt longOpt x = false ∧
      isAssignmentEntry longOpt x = false) :
    (∀ opt arg v, (opt = shortOpt ∨ opt = longOpt) → opt ≠ "--" → arg ≠ "--" →
      parse arg = some v →
      argsHaveOptionWithArg parse (pre ++ opt :: arg :: post) shortOpt longOpt d modify =
        (Except.ok v, if modify then pre ++ post else pre ++ opt :: arg :: post)) ∧
    (∀ a v, longOpt ++ "=" ++ a ≠ shortOpt → parse a = some v →
      argsHaveOptionWithArg parse (pre ++ (longOpt ++ "=" ++ a) :: post) shortOpt longOpt d
          modify =
        (Except.ok v, if modify then pre ++ post else pre ++ (longOpt ++ "=" ++ a) :: post)) := by
  constructor
  · intro opt arg v hopt hod had hparse
    rw [argsHaveOptionWithArg_skipping parse shortOpt longOpt d modify pre _ hpre]
    have hfind : find "--" (opt :: arg :: post) = find "--" post + 1 + 1 := by
      simp [find, hod, had]
    have hisopt : isOptionEntry shortOpt longOpt opt = true := by
      unfold isOptionEntry
      rcases hopt with h | h <;> simp [h]
    have hne : ¬ (pre.length + 1 = pre.length + (find "--" post + 1 + 1)) := by omega
    rw [hfind, argsHaveOptionWithArgLoop]
    simp only [getD_at_prefix_length, hisopt, if_true, if_neg hne, getD_succ_prefix_length,
      hparse, drop_prefix_length_two, List.take_left']
  · intro a v hns hparse
    rw [argsHaveOptionWithArg_skipping parse shortOpt longOpt d modify pre _ hpre]
    have hfind : find "--" ((longOpt ++ "=" ++ a) :: post) = find "--" post + 1 := by
      simp [find, assignment_ne_dashes longOpt a]
    have hisopt : isOptionEntry shortOpt longOpt (longOpt ++ "=" ++ a) = false := by
      unfold isOptionEntry
      simp [hns, assignment_ne_longOpt longOpt a]
    rw [hfind, argsHaveOptionWithArgLoop]
    simp only [getD_at_prefix_length, hisopt, Bool.false_eq_true, if_false,
      isAssignmentEntry_assignment, if_true, drop_assignment, hparse, drop_prefix_length_one,
      List.take_left']

/-- Witness for C17 (amended): `-n 42` after the program name, with removal. -/
theorem argsHaveOptionWithArg_first_occurrence_witness :
    argsHaveOptionWithArg (fun s => if s = "42" then some (42 : Int) else none)
        (["stellarium"] ++ "-n" :: "42" :: ["--", "-n", "7"]) "-n" "--number" 0 true =
      (Except.ok 42, ["stellarium", "--", "-n", "7"]) :=
  (argsHaveOptionWithArg_first_occurrence (fun s => if s = "42" then some (42 : Int) else none)
    "-n" "--number" 0 true ["stellarium"] ["--", "-n", "7"]
    (by decide)).1 "-n" "42" 42 (Or.inl rfl) (by decide) (by decide) rfl

end StelUtils

namespace StelUtils

/-- C18: when no entry before the first `--` equals `shortOpt` or `longOpt` or
has the form `longOpt=...`, the call returns `defValue` and leaves `args`
unchanged, for either value of `modify`; and this stays so whatever entries are
put at and after the `--`, the option itself included. -/
theorem argsHaveOptionWithArg_absent {T : Type} (parse : String → Option T)
    (args : List String) (shortOpt longOpt : String) (d : T)
    (h : ∀ x ∈ args.take (find "--" args),
      isOptionEntry shortOpt longOpt x = false ∧ isAssignmentEntry longOpt x = false) :
    (∀ modify, argsHaveOptionWithArg parse args shortOpt longOpt d modify =
      (Except.ok d, args)) ∧
    (∀ modify post,
      argsHaveOptionWithArg parse (args.take (find "--" args) ++ "--" :: post) shortOpt
          longOpt d modify =
        (Except.ok d, args.take (find "--" args) ++ "--" :: post)) := by
  have hpre : ∀ x ∈ args.take (find "--" args), x ≠ "--" ∧
      isOptionEntry shortOpt longOpt x = false ∧ isAssignmentEntry longOpt x = false :=
    fun x hx => ⟨find_take_absent "--" args x hx, h x hx⟩
  constructor
  · intro modify
    have hs := argsHaveOptionWithArg_skipping parse shortOpt longOpt d modify
      (args.take (find "--" args)) (args.drop (find "--" args)) hpre
    rw [find_drop, List.take_append_drop] at hs
    rw [hs]
    rfl
  · intro modify post
    rw [argsHaveOptionWithArg_skipping parse shortOpt longOpt d modify
      (args.take (find "--" args)) ("--" :: post) hpre]
    have hf : find "--" ("--" :: post) = 0 := by simp [find]
    rw [hf]
    rfl

/-- Witness for C18: the option only occurs after `--`. -/
theorem argsHaveOptionWithArg_absent_witness :
    argsHaveOptionWithArg (fun s => if s = "42" then some (42 : Int) else none)
        ["stellarium", "--full-screen", "--", "-n", "42"] "-n" "--number" 0 true =
      (Except.ok 0, ["stellarium", "--full-screen", "--", "-n", "42"]) :=
  (argsHaveOptionWithArg_absent (fun s => if s = "42" then some (42 : Int) else none)
    ["stellarium", "--full-screen", "--", "-n", "42"] "-n" "--number" 0 (by decide)).1 true

/-- C19 (the code at the failing input): with an argument that does not convert,
the separated forms throw `runtime_error("optarg_type")` but the form
`longOpt=arg` throws `runtime_error("optarg type")`, with a blank; a missing
argument throws `"no_optarg"`; `args` is unchanged in each case. -/
theorem argsHaveOptionWithArg_assignment_error_message :
    argsHaveOptionWithArg (fun s => if s = "42" then some (42 : Int) else none)
        ["stellarium", "--number=abc"] "-n" "--number" 0 true =
      (Except.error "optarg type", ["stellarium", "--number=abc"]) ∧
    argsHaveOptionWithArg (fun s => if s = "42" then some (42 : Int) else none)
        ["stellarium", "--number", "abc"] "-n" "--number" 0 true =
      (Except.error "optarg_type", ["stellarium", "--number", "abc"]) ∧
    argsHaveOptionWithArg (fun s => if s = "42" then some (42 : Int) else none)
        ["stellarium", "-n", "abc"] "-n" "--number" 0 true =
      (Except.error "optarg_type", ["stellarium", "-n", "abc"]) ∧
    argsHaveOptionWithArg (fun s => if s = "42" then some (42 : Int) else none)
        ["stellarium", "-n"] "-n" "--number" 0 true =
      (Except.error "no_optarg", ["stellarium", "-n"]) ∧
    argsHaveOptionWithArg (fun s => if s = "42" then some (42 : Int) else none)
        ["stellarium", "--number", "--", "42"] "-n" "--number" 0 true =
      (Except.error "no_optarg", ["stellarium", "--number", "--", "42"]) := by
  refine ⟨?_, ?_, ?_, ?_, ?_⟩ <;> rfl

end StelUtils

/-! ## Shader set-up of the OpenGL 2 renderer -/

namespace StelQGL2Renderer

/-- C20 (the code at the failing input): when only the vertex shader of
`textureShaderProgram` fails to compile and the uninitialised member
`colorTextureShaderProgram` happens to be non-`NULL`, the third test, which
reads `colorTextureShaderProgram` instead of `textureShaderProgram`, lets
`init()` go on: it appends the `NULL` program to `shaderPrograms` and returns
true.  With that member `NULL` and every program loading, `init()` returns
false. -/
theorem init_ignores_failed_texture_program :
    init ⟨true, false, false⟩
        ⟨fun name stage =>
            !(decide (name = "textureShaderProgram") && decide (stage = ShaderStage.Vertex)),
          fun _ => true, true, true⟩
        (new none none none (some ⟨"stale"⟩)) =
      Except.ok (true,
        { initialized := true
          shaderPrograms :=
            [some ⟨"plainShaderProgram"⟩, some ⟨"colorShaderProgram"⟩, none,
              some ⟨"colorTextureShaderProgram"⟩]
          plainShaderProgram := some ⟨"plainShaderProgram"⟩
          colorShaderProgram := some ⟨"colorShaderProgram"⟩
          textureShaderProgram := none
          colorTextureShaderProgram := some ⟨"colorTextureShaderProgram"⟩ }) ∧
    loadShaderProgram
        ⟨fun name stage =>
            !(decide (name = "textureShaderProgram") && decide (stage = ShaderStage.Vertex)),
          fun _ => true, true, true⟩ "textureShaderProgram" = none ∧
    (init ⟨true, false, false⟩ ⟨fun _ _ => true, fun _ => true, true, true⟩
        (new none none none none)).toOption.map (fun x => x.1) = some false := by
  refine ⟨?_, ?_, ?_⟩ <;> rfl

end StelQGL2Renderer

/-! ## The upload format chosen by `glLoad` -/

namespace StelTexture

/-- C21: for a held image with channel layout `(grayscale, alpha)` and the
context current, `glLoad` returns having called `bindTexture` exactly once, with
the format `GL_LUMINANCE` for grayscale without alpha, `GL_LUMINANCE_ALPHA` for
grayscale with alpha, `GL_RGBA` for colour with alpha and `GL_RGB` for colour
without alpha, whatever the build, the image size, the handle, the filtering and
the mipmap setting; and it sets `GL_TEXTURE_WRAP_S` and `GL_TEXTURE_WRAP_T`, in
this order, to the configured wrap mode. -/
theorem glLoad_format (b : Build) (gl : GLEnv) (t : StelTexture) (w h : Int)
    (grayscale alpha : Bool) (himg : t.qImage = QImage.pixels w h grayscale alpha)
    (hctx : gl.contextIsCurrent = true) :
    ∃ r, glLoad b gl t = Except.ok r ∧
      r.events.filterMap Event.uploadFormat =
        [match grayscale, alpha with
          | true, false => GLenum.GL_LUMINANCE
          | true, true => GLenum.GL_LUMINANCE_ALPHA
          | false, true => GLenum.GL_RGBA
          | false, false => GLenum.GL_RGB] ∧
      r.events.filterMap Event.texParameter =
        [(GLenum.GL_TEXTURE_WRAP_S, t.loadParams.wrapMode),
          (GLenum.GL_TEXTURE_WRAP_T, t.loadParams.wrapMode)] := by
  unfold glLoad
  simp only [himg, hctx, QImage.isNull, QImage.isGrayscale, QImage.hasAlphaChannel,
    Bool.false_eq_true, if_false, Bool.not_true, Bool.and_false]
  refine ⟨_, rfl, ?_, ?_⟩
  · cases grayscale <;> cases alpha <;> cases b.openGLES2 <;>
      simp [Event.uploadFormat]
  · cases b.openGLES2 <;> simp [Event.texParameter]

/-- Witness for C21: a 64x64 grayscale image with alpha. -/
theorem glLoad_format_witness :
    ∃ r, glLoad ⟨true, false, false⟩ ⟨true, 5⟩
          { new "stars/halo.png" ⟨false, GLenum.GL_LINEAR, GLenum.GL_REPEAT⟩ with
            qImage := QImage.pixels 64 64 true true } = Except.ok r ∧
      r.events.filterMap Event.uploadFormat = [GLenum.GL_LUMINANCE_ALPHA] :=
  (glLoad_format ⟨true, false, false⟩ ⟨true, 5⟩
    { new "stars/halo.png" ⟨false, GLenum.GL_LINEAR, GLenum.GL_REPEAT⟩ with
      qImage := QImage.pixels 64 64 true true } 64 64 true true rfl rfl).elim
    fun r hr => ⟨r, hr.1, hr.2.1⟩

end StelTexture

/-! ## Script images -/

namespace ImageMgr

/-- C22 (the code at the failing input): when the image to be replaced is the
last entry of `active_images`, `load_image` erases it and then advances the
iterator beyond `end()`, so the loop goes on and dereferences it; loading the
same name twice in a row already does this.  When the image to be replaced is
not the last entry, the entry after it is skipped and the call completes. -/
theorem load_image_replacing_last_is_undefined :
    load_image [] "logo.png" "logo" = Except.ok (1, [⟨"logo.png", "logo"⟩]) ∧
    load_image [⟨"logo.png", "logo"⟩] "logo2.png" "logo" =
      Except.error IteratorFault.pastTheEnd ∧
    load_image [⟨"sky.png", "sky"⟩, ⟨"logo.png", "logo"⟩] "logo2.png" "logo" =
      Except.error IteratorFault.pastTheEnd ∧
    load_image [⟨"logo.png", "logo"⟩, ⟨"sky.png", "sky"⟩] "logo2.png" "logo" =
      Except.ok (1, [⟨"sky.png", "sky"⟩, ⟨"logo2.png", "logo"⟩]) := by
  refine ⟨?_, ?_, ?_, ?_⟩ <;> rfl

end ImageMgr

/-! ## Time speed -/

namespace Navigator

/-- The constant `JD_SECOND` is positive. -/
theorem JD_SECOND_pos {K : Type} [LinearOrderedField K] : (0 : K) < JD_SECOND := by
  unfold JD_SECOND
  positivity

/-- C23: over exact numbers, for every current time speed `s` the speed set by
`increaseTimeSpeed` is strictly greater than `s` and the speed set by
`decreaseTimeSpeed` is strictly smaller than `s`; the four tests of each
function cover every `s`. -/
theorem timeSpeed_strictly_changes {K : Type} [LinearOrderedField K] (s : K) :
    s < increaseTimeSpeed s ∧ decreaseTimeSpeed s < s ∧
    (s ≥ JD_SECOND ∨ s < -JD_SECOND ∨ (s ≥ 0 ∧ s < JD_SECOND) ∨ (s ≥ -JD_SECOND ∧ s < 0)) ∧
    (s > JD_SECOND ∨ s ≤ -JD_SECOND ∨ (s > -JD_SECOND ∧ s ≤ 0) ∨ (s > 0 ∧ s ≤ JD_SECOND)) := by
  have hJ : (0 : K) < JD_SECOND := JD_SECOND_pos
  refine ⟨?_, ?_, ?_, ?_⟩
  · unfold increaseTimeSpeed
    split_ifs with h1 h2 h3 h4
    · linarith
    · linarith
    · linarith
    · linarith
    · exfalso
      push_neg at h1 h2
      by_cases h0 : 0 ≤ s
      · exact h3 ⟨h0, h1⟩
      · exact h4 ⟨h2, lt_of_not_ge h0⟩
  · unfold decreaseTimeSpeed
    split_ifs with h1 h2 h3 h4
    · linarith
    · linarith
    · linarith
    · linarith
    · exfalso
      push_neg at h1 h2
      by_cases h0 : s ≤ 0
      · exact h3 ⟨h2, h0⟩
      · exact h4 ⟨lt_of_not_ge h0, h1⟩
  · by_cases h1 : s ≥ JD_SECOND
    · exact Or.inl h1
    · by_cases h2 : s < -JD_SECOND
      · exact Or.inr (Or.inl h2)
      · push_neg at h1 h2
        by_cases h0 : 0 ≤ s
        · exact Or.inr (Or.inr (Or.inl ⟨h0, h1⟩))
        · exact Or.inr (Or.inr (Or.inr ⟨h2, lt_of_not_ge h0⟩))
  · by_cases h1 : s > JD_SECOND
    · exact Or.inl h1
    · by_cases h2 : s ≤ -JD_SECOND
      · exact Or.inr (Or.inl h2)
      · push_neg at h1 h2
        by_cases h0 : s ≤ 0
        · exact Or.inr (Or.inr (Or.inl ⟨h2, h0⟩))
        · exact Or.inr (Or.inr (Or.inr ⟨lt_of_not_ge h0, h1⟩))

end Navigator

/-! ## Field of view -/

namespace Projector

/-- C24 (the code at the failing input): with `fov = 90` in `[1, 100]`,
`change_fov(6)` first stores 96 and then, testing `96 + 6 > 100`, overwrites it
with 100, whereas `set_fov(96)` gives 96; and `change_fov(10)`, whose target is
exactly `max_fov`, passes none of the three strict tests and leaves `fov` at 90,
whereas `set_fov(100)` gives 100. -/
theorem change_fov_differs_from_set_fov :
    (change_fov ⟨90, 1, 100⟩ 6).fov = 100 ∧
    (set_fov ⟨90, 1, 100⟩ (90 + 6)).fov = 96 ∧
    clamp 1 100 (90 + 6) = 96 ∧
    (change_fov ⟨90, 1, 100⟩ 10).fov = 90 ∧
    (set_fov ⟨90, 1, 100⟩ (90 + 10)).fov = 100 := by
  refine ⟨?_, ?_, ?_, ?_, ?_⟩ <;> norm_num [change_fov, set_fov, clamp]

end Projector

/-! ## Add-on compatibility -/

namespace AddOnDialog

/-- C25 (the code at the failing input): the code compares the numbers obtained
by gluing the components together with fixed `00` and `0` separators, which
does not follow the version order once a component has two digits.  With
application version 0.10.0 and the range 0.9.10 to 0.11.0 the numbers are 1000,
9010 and 1100, so the call returns false although the version is inside the
range; with application version 0.14.0 and the range 0.13.0 to 0.13.10 the
numbers are 1400, 1300 and 13010, so the call returns true although the version
is above the range. -/
theorem isCompatible_not_version_order :
    isCompatible "0.10.0" "0.9.10" "0.11.0" = false ∧
    (versionLE (0, 9, 10) (0, 10, 0) && versionLE (0, 10, 0) (0, 11, 0)) = true ∧
    isCompatible "0.14.0" "0.13.0" "0.13.10" = true ∧
    (versionLE (0, 13, 0) (0, 14, 0) && versionLE (0, 14, 0) (0, 13, 10)) = false ∧
    versionNumber (splitDots "0.10.0".toList) = 1000 ∧
    versionNumber (splitDots "0.9.10".toList) = 9010 ∧
    versionNumber (splitDots "0.13.10".toList) = 13010 ∧
    isCompatible "0.13.1" "0.13" "0.14.0" = false := by
  refine ⟨?_, ?_, ?_, ?_, ?_, ?_, ?_, ?_⟩ <;> decide

end AddOnDialog

/-! ## CCD settings -/

namespace QSettings

/-- Reading back the key just written gives the value written. -/
theorem value_setValue_same (settings : QSettings) (key : String) (v d : QVariant) :
    (settings.setValue key v).value key d = v := by
  simp [setValue, value]

/-- Filtering out one key does not change what is found under another. -/
theorem find_filter_other (settings : QSettings) (key other : String) (h : other ≠ key) :
    List.find? (fun entry => decide (entry.1 = other))
        (List.filter (fun entry => decide (entry.1 ≠ key)) settings) =
      List.find? (fun entry => decide (entry.1 = other)) settings := by
  induction settings with
  | nil => rfl
  | cons e es ih =>
    by_cases hk : e.1 = key
    · have hne : ¬ e.1 = other := fun e2 => h (e2.symm.trans hk)
      rw [List.filter_cons_of_neg (by simp [hk]), List.find?_cons_of_neg _ (by simp [hne])]
      exact ih
    · rw [List.filter_cons_of_pos (by simp [hk])]
      by_cases ho : e.1 = other
      · rw [List.find?_cons_of_pos _ (by simp [ho]), List.find?_cons_of_pos _ (by simp [ho])]
      · rw [List.find?_cons_of_neg _ (by simp [ho]), List.find?_cons_of_neg _ (by simp [ho])]
        exact ih

/-- Writing one key does not change what is read under another. -/
theorem value_setValue_other (settings : QSettings) (key other : String) (v d : QVariant)
    (h : other ≠ key) : (settings.setValue key v).value other d = settings.value other d := by
  have h2 : ¬ key = other := fun e => h e.symm
  unfold setValue value
  rw [List.find?_cons_of_neg _ (by simp [h2]), find_filter_other settings key other h]

/-- Keys with the same beginning and different endings are different. -/
theorem key_ne (p a b : String) (h : a ≠ b) : p ++ a ≠ p ++ b := by
  intro e
  apply h
  have h2 := congrArg String.data e
  rw [String.data_append, String.data_append] at h2
  exact String.ext (List.append_cancel_left h2)

end QSettings

namespace QSettings

/-- Writing a key does not change what is read under a key of the same group
with another name. -/
theorem value_setValue_key (settings : QSettings) (p a b : String) (v d : QVariant)
    (h : a ≠ b) : (settings.setValue (p ++ b) v).value (p ++ a) d = settings.value (p ++ a) d :=
  value_setValue_other settings (p ++ b) (p ++ a) v d (key_ne p a b h)

end QSettings

namespace CCD

/-- What `ccdFromSettings` reads back after `writeToSettings`: every property of
the CCD written, except that `pixelHeight` holds the `pixelWidth` written. -/
theorem ccdFromSettings_writeToSettings (conv : QtConversions) (c : CCD)
    (settings : QSettings) (index : Int) :
    ccdFromSettings conv (writeToSettings conv c settings index) index =
      { c with m_pixelHeight := c.m_pixelWidth } := by
  unfold ccdFromSettings writeToSettings
  simp only [QSettings.value_setValue_same, QSettings.value_setValue_key, ne_eq,
    String.reduceEq, not_false_eq_true, QVariant.toString, QVariant.toInt, QVariant.toDouble,
    QVariant.toBool, CCD.new]

/-- C26 (the code at the failing input): for every CCD, settings object and
index, reading back with `ccdFromSettings` after `writeToSettings` gives the
CCD written with `pixelHeight` replaced by its `pixelWidth`, because
`writeToSettings` stores `pixelWidth()` under `pixel_height`; for a CCD with
pixel width 9 and pixel height 7 the pixel height read back is 9. -/
theorem settings_roundtrip_loses_pixelHeight (conv : QtConversions) (c : CCD)
    (settings : QSettings) (index : Int) :
    ccdFromSettings conv (writeToSettings conv c settings index) index =
      { c with m_pixelHeight := c.m_pixelWidth } ∧
    (ccdFromSettings conv
        (writeToSettings conv
          { m_name := "My CCD", m_resolutionX := 4096, m_resolutionY := 4096,
            m_chipWidth := 36.8, m_chipHeight := 36.8, m_pixelWidth := 9, m_pixelHeight := 7,
            m_has_oag := false, m_oag_prismHeight := 0, m_oag_prismWidth := 0,
            m_oag_prismDistance := 0, m_oag_prismPosAngle := 0 }
          settings index) index).m_pixelHeight = 9 := by
  refine ⟨ccdFromSettings_writeToSettings conv c settings index, ?_⟩
  rw [ccdFromSettings_writeToSettings]

end CCD

end Stellarium
